import Mathlib

/-!
Verification development for the story-splitter web application.

The definitions below are a shallow embedding of the JavaScript sources:

* `server/index.js` — the in-memory story store (a JS `Map`) and the
  REST handlers for `GET/POST/PUT/DELETE /api/stories/:id` and
  `POST /api/stories/:id/accept-splits`;
* `agents/story-analyst.js` — `StoryAnalystAgent.performAnalysis` and its
  helpers (INVEST criterion heuristics, size assessment, quality issues,
  overall score);
* `agents/splitting-expert.js` — `SplittingExpertAgent.generateSplitSuggestions`
  and its pattern detector / per-pattern split generators;
* `client/src/hooks/usePusherCollaboration.js` — the presence-channel
  member-list handlers, the typing-indicator handler, and the channel
  name used by `subscribeToStory`.

Modelling conventions: JS machine integers and timestamps are `Nat`
(`Date.now()` / `new Date()` become an explicit `now : Nat` parameter);
JS fractional constants such as confidences are scaled to integer
hundredths (`0.85` ↦ `85`); a JS `Map` is an association list keyed by
`String`; absent (`undefined`) request-body fields are `Option`;
JS regular expressions are modelled character-by-character over
`List Char`, with `\s` read as ASCII whitespace.
-/

namespace StorySplitter

/-! ## Association lists: the model of a JS `Map` -/

/-- Lookup in an association list (JS `Map.get`). -/
def alookup {α : Type} : List (String × α) → String → Option α
  | [], _ => none
  | (k2, v) :: rest, k => if k2 = k then some v else alookup rest k

/-- `Map.set`: replace the entry in place, or append a fresh one. -/
def aset {α : Type} : List (String × α) → String → α → List (String × α)
  | [], k, v => [(k, v)]
  | (k2, v2) :: rest, k, v =>
    if k2 = k then (k, v) :: rest else (k2, v2) :: aset rest k v

/-- `Map.delete`: remove the entry for a key. -/
def adel {α : Type} (st : List (String × α)) (k : String) : List (String × α) :=
  st.filter (fun p => p.1 ≠ k)

/-- JS `s.toLowerCase()` over the character list (structurally
recursive, unlike the byte-position-recursive library lowering). -/
def lowerStr (s : String) : String := String.mk (s.toList.map Char.toLower)

/-! ## The story record (server `stories` map values, `server/index.js`) -/

/-- A stored story object, with the fields used by `server/index.js`.
`lastModified`/`createdAt` hold the `now` clock value in effect when the
field was written. -/
structure Story where
  id : String
  title : String
  description : String
  content : String
  parentStoryId : Option String
  epicId : Option String
  priority : String
  effort : String
  storyPoints : Nat
  acceptanceCriteria : List String
  status : String
  version : Nat
  lastModified : Nat
  createdAt : Option Nat
  hasSplits : Bool
  createdFrom : Option String
  deriving Repr, DecidableEq

/-- A request body for `POST`/`PUT /api/stories`: each field is present
(`some`) or absent (`none`, i.e. JS `undefined`). A body may also carry
`id` and `version` fields; the handlers overwrite both. -/
structure StoryPatch where
  id : Option String := none
  title : Option String := none
  description : Option String := none
  content : Option String := none
  parentStoryId : Option (Option String) := none
  epicId : Option (Option String) := none
  priority : Option String := none
  effort : Option String := none
  storyPoints : Option Nat := none
  acceptanceCriteria : Option (List String) := none
  status : Option String := none
  version : Option Nat := none
  hasSplits : Option Bool := none
  deriving Repr, DecidableEq

/-- The in-memory story store (`const stories = new Map()`). -/
def Store := List (String × Story)

/-- A Pusher event as triggered by the server
(`pusher.trigger(channel, event, {storyId, changes, user, timestamp})`). -/
structure PusherEvent where
  channel : String
  event : String
  storyId : String
  changes : Story
  timestamp : Nat
  deriving Repr, DecidableEq

/-! ## REST handlers (`server/index.js`) -/

/-- `GET /api/stories/:id` (lines 123–129): `200` with the story, or
`404` with error `"Story not found"`. -/
def getStoryEndpoint (st : Store) (id : String) : Nat × Except String Story :=
  match alookup st id with
  | some story => (200, Except.ok story)
  | none => (404, Except.error "Story not found")

/-- The story object built by `POST /api/stories` (lines 147–158):
`{ id: genId, parentStoryId: null, ...req.body, createdAt, lastModified,
version: 1 }`.  Because the body is spread after the generated `id`, a
body-supplied `id` wins over `genId`. -/
def mkPostStory (genId : String) (b : StoryPatch) (now : Nat) : Story :=
  { id := b.id.getD genId
    title := b.title.getD ""
    description := b.description.getD ""
    content := b.content.getD ""
    parentStoryId := b.parentStoryId.getD none
    epicId := b.epicId.getD none
    priority := b.priority.getD ""
    effort := b.effort.getD ""
    storyPoints := b.storyPoints.getD 0
    acceptanceCriteria := b.acceptanceCriteria.getD []
    status := b.status.getD ""
    version := 1
    lastModified := now
    createdAt := some now
    hasSplits := b.hasSplits.getD false
    createdFrom := none }

/-- `POST /api/stories`: store the new story under its `id` and return it
with status `201`. -/
def postStory (st : Store) (genId : String) (b : StoryPatch) (now : Nat) :
    (Nat × Story) × Store :=
  let story := mkPostStory genId b now
  ((201, story), aset st story.id story)

/-- The merged story built by `PUT /api/stories/:id` (lines 217–223):
`{ ...story, ...req.body, id, lastModified: new Date(),
version: (story.version || 0) + 1 }`. -/
def putUpdate (story : Story) (b : StoryPatch) (id : String) (now : Nat) : Story :=
  { id := id
    title := b.title.getD story.title
    description := b.description.getD story.description
    content := b.content.getD story.content
    parentStoryId := b.parentStoryId.getD story.parentStoryId
    epicId := b.epicId.getD story.epicId
    priority := b.priority.getD story.priority
    effort := b.effort.getD story.effort
    storyPoints := b.storyPoints.getD story.storyPoints
    acceptanceCriteria := b.acceptanceCriteria.getD story.acceptanceCriteria
    status := b.status.getD story.status
    version := (if story.version = 0 then 0 else story.version) + 1
    lastModified := now
    createdAt := story.createdAt
    hasSplits := b.hasSplits.getD story.hasSplits
    createdFrom := story.createdFrom }

/-- The result of a `PUT /api/stories/:id` call: HTTP status, response
body, the story store afterwards, and the Pusher events triggered. -/
structure PutResponse where
  status : Nat
  body : Except String Story
  store : Store
  events : List PusherEvent

/-- `PUT /api/stories/:id` (lines 209–238).  On a missing id: `404`,
store untouched, no event.  Otherwise the merged story is stored and,
`if (pusher)`, one `story-updated` event is triggered on channel
`presence-story-<id>`. -/
def putStory (st : Store) (id : String) (b : StoryPatch) (now : Nat)
    (pusherConfigured : Bool) : PutResponse :=
  match alookup st id with
  | none => { status := 404, body := Except.error "Story not found",
              store := st, events := [] }
  | some story =>
    let updatedStory := putUpdate story b id now
    { status := 200
      body := Except.ok updatedStory
      store := aset st id updatedStory
      events :=
        if pusherConfigured then
          [{ channel := "presence-story-" ++ id, event := "story-updated",
             storyId := id, changes := updatedStory, timestamp := now }]
        else [] }

/-- `DELETE /api/stories/:id` (lines 269–277): `404` and untouched store
when the id is absent, else `204` and the entry is removed. -/
def deleteStory (st : Store) (id : String) : (Nat × Except String Unit) × Store :=
  if (alookup st id).isSome then ((204, Except.ok ()), adel st id)
  else ((404, Except.error "Story not found"), st)

/-- One split suggestion in the `accept-splits` request body
(`req.body.splits` elements, lines 172–189 of `server/index.js`). -/
structure SplitBody where
  title : String
  description : Option String := none
  priority : Option String := none
  effort : Option String := none
  storyPoints : Option Nat := none
  acceptanceCriteria : Option (List String) := none
  deriving Repr, DecidableEq

/-- JS `v || dflt` for strings: `undefined` and `""` are falsy. -/
def jsOrStr (v : Option String) (dflt : String) : String :=
  match v with
  | none => dflt
  | some s => if s = "" then dflt else s

/-- The sub-story created for the `index`-th split by
`POST /api/stories/:id/accept-splits` (lines 173–189). -/
def mkSubStory (parentId : String) (parent : Story) (split : SplitBody)
    (index : Nat) (now : Nat) : Story :=
  { id := "story-" ++ toString now ++ "-" ++ toString index
    title := split.title
    description := split.description.getD ""
    content := "As a user, I can " ++ lowerStr split.title
    parentStoryId := some parentId
    epicId := parent.epicId
    priority := jsOrStr split.priority "Medium"
    effort := jsOrStr split.effort "Medium"
    storyPoints := split.storyPoints.getD 0
    acceptanceCriteria := split.acceptanceCriteria.getD []
    status := "draft"
    version := 1
    lastModified := now
    createdAt := some now
    hasSplits := false
    createdFrom := some "ai-split" }

/-- Result of `POST /api/stories/:id/accept-splits`. -/
structure AcceptSplitsResponse where
  status : Nat
  parentStory : Option Story
  subStories : List Story
  store : Store

/-- `POST /api/stories/:id/accept-splits` (lines 161–207): create one
sub-story per split, then re-store the parent as
`{ ...parentStory, hasSplits: true, lastModified: new Date() }`. -/
def acceptSplits (st : Store) (id : String) (splits : List SplitBody)
    (now : Nat) : AcceptSplitsResponse :=
  match alookup st id with
  | none => { status := 404, parentStory := none, subStories := [], store := st }
  | some parentStory =>
    let createdStories := splits.enum.map
      (fun p => mkSubStory id parentStory p.2 p.1 now)
    let st1 := createdStories.foldl (fun acc s => aset acc s.id s) st
    let updatedParent :=
      { parentStory with hasSplits := true, lastModified := now }
    { status := 201
      parentStory := some updatedParent
      subStories := createdStories
      store := aset st1 id updatedParent }

/-- The story seeded in the store with id `"1"` (`server/index.js`
lines 41–55), with the clock value `0` for its timestamp. -/
def demoStory : Story :=
  { id := "1"
    title := "User can log into the system"
    description := "Basic authentication functionality"
    content := "As a user, I can log into the system so that I can access my personal dashboard."
    parentStoryId := none
    epicId := some "epic1"
    priority := "High"
    effort := "Small"
    storyPoints := 3
    acceptanceCriteria := ["Valid credentials allow access", "Invalid credentials show error"]
    status := "published"
    version := 1
    lastModified := 0
    createdAt := none
    hasSplits := false
    createdFrom := none }

/-- A store holding only `demoStory`. -/
def demoStore : Store := [("1", demoStory)]

/-! ## Operation traces over the story store (for the last-write-wins law) -/

/-- One REST mutation of the story store.  `post` carries the id the
server generated from the clock (`story-<Date.now()>`); the effective key
is still `(mkPostStory genId b now).id` because a body-supplied id wins. -/
inductive StoreOp where
  | post (genId : String) (b : StoryPatch) (now : Nat)
  | put (id : String) (b : StoryPatch) (now : Nat)
  | del (id : String)
  deriving Repr, DecidableEq

/-- The key a store operation addresses. -/
def StoreOp.key : StoreOp → String
  | .post genId b _ => b.id.getD genId
  | .put id _ _ => id
  | .del id => id

/-- Apply one REST mutation to the store, through the handlers. -/
def applyOp (st : Store) : StoreOp → Store
  | .post genId b now => (postStory st genId b now).2
  | .put id b now => (putStory st id b now false).store
  | .del id => (deleteStory st id).2

/-- Apply a whole trace of REST mutations. -/
def applyOps (st : Store) (ops : List StoreOp) : Store :=
  ops.foldl applyOp st

/-- The value the most recent effective operation on one key leaves
behind: `post` stores the freshly built story, `put` merges into the
current value when one exists (404 otherwise, writing nothing), `del`
removes.  Operations on other keys are ignored by the caller. -/
def lastWriteOn (cur : Option Story) : List StoreOp → Option Story
  | [] => cur
  | .post genId b now :: rest => lastWriteOn (some (mkPostStory genId b now)) rest
  | .put id b now :: rest =>
    lastWriteOn (match cur with
                 | none => none
                 | some s => some (putUpdate s b id now)) rest
  | .del _ :: rest => lastWriteOn none rest

/-- The sub-trace of operations addressing a given key. -/
def opsOn (id : String) (ops : List StoreOp) : List StoreOp :=
  ops.filter (fun op => op.key = id)

/-! ## Client collaboration hook (`client/src/hooks/usePusherCollaboration.js`) -/

/-- The channel the server triggers `story-updated` on for a story
(`server/index.js` line 229). -/
def serverStoryUpdateChannel (id : String) : String := "presence-story-" ++ id

/-- The channel name `subscribeToStory` subscribes to and binds its
`story-updated`/`story-published` callbacks on (hook lines 108–119). -/
def subscribeToStoryChannel (storyId : String) : String :=
  "private-story-" ++ storyId

/-- The event names `subscribeToStory` binds the callback to. -/
def subscribeToStoryEvents : List String := ["story-updated", "story-published"]

/-- A presence-channel member (`member.id` plus its `member.info`
payload, kept opaque as a string). -/
structure Member where
  id : String
  info : String
  deriving Repr, DecidableEq

/-- The presence-channel events the hook binds handlers for
(hook lines 67–87). -/
inductive PresenceEvent where
  | subscriptionSucceeded (members : List Member)
  | memberAdded (m : Member)
  | memberRemoved (m : Member)
  deriving Repr, DecidableEq

/-- One handler step on the `connectedUsers` state:
`pusher:subscription_succeeded` replaces the list with the delivered
members, `pusher:member_added` appends, `pusher:member_removed` filters
out the matching id. -/
def stepConnectedUsers (users : List Member) : PresenceEvent → List Member
  | .subscriptionSucceeded ms => ms
  | .memberAdded m => users ++ [m]
  | .memberRemoved m => users.filter (fun u => u.id ≠ m.id)

/-- `connectedUsers` after a sequence of presence events (initial state
`[]`, hook line 8). -/
def runConnectedUsers (evs : List PresenceEvent) : List Member :=
  evs.foldl stepConnectedUsers []

/-- Ground-truth membership of the presence channel: the id set the
channel service itself maintains while emitting the same events. -/
def connectedIdsStep (cur : List String) : PresenceEvent → List String
  | .subscriptionSucceeded ms => ms.map Member.id
  | .memberAdded m => cur ++ [m.id]
  | .memberRemoved m => cur.filter (fun i => i ≠ m.id)

/-- Channel membership after a sequence of presence events. -/
def connectedIds (evs : List PresenceEvent) : List String :=
  evs.foldl connectedIdsStep []

/-- Well-formedness of a presence event stream, as the hosted channel
service guarantees it: the initial member list has distinct ids, a
member is only added while absent and only removed while present. -/
def presenceWF (cur : List String) : List PresenceEvent → Bool
  | [] => true
  | .subscriptionSucceeded ms :: rest =>
    (ms.map Member.id).Nodup && presenceWF (ms.map Member.id) rest
  | .memberAdded m :: rest =>
    !(cur.contains m.id) && presenceWF (cur ++ [m.id]) rest
  | .memberRemoved m :: rest =>
    cur.contains m.id && presenceWF (cur.filter (fun i => i ≠ m.id)) rest

/-- Typing-indicator payload of a `client-typing` event. -/
structure TypingData where
  userId : String
  isTyping : Bool
  deriving Repr, DecidableEq

/-- The `handleTyping` handler (hook lines 180–189), acting on the
`typingUsers` map: set the entry only for a remote user that is typing,
delete it in every other case.  (The 2-second auto-clear timeout is a
separate, later state update and is not part of this step.) -/
def handleTyping (currentUserId : String) (data : TypingData)
    (prev : List (String × Bool)) : List (String × Bool) :=
  if data.isTyping ∧ data.userId ≠ currentUserId then
    aset prev data.userId true
  else
    adel prev data.userId

/-! ## String helpers shared by the agent heuristics -/

/-- Is the first list a leading segment of the second? -/
def listHasPre : List Char → List Char → Bool
  | [], _ => true
  | _ :: _, [] => false
  | a :: as, b :: bs => a = b && listHasPre as bs

/-- Contiguous-sublist test over character lists. -/
def listHasSub (needle : List Char) : List Char → Bool
  | [] => needle.isEmpty
  | c :: rest => listHasPre needle (c :: rest) || listHasSub needle rest

/-- JS `hay.includes(needle)` (case-sensitive). -/
def strIncludes (hay needle : String) : Bool :=
  listHasSub needle.toList hay.toList

/-- A case-insensitive regex alternative such as `/after/i` viewed as a
substring test: `hay.match(/needle/i)` is truthy. -/
def hasSubCI (hay needle : String) : Bool :=
  strIncludes (lowerStr hay) (lowerStr needle)

/-- JS `Array.prototype.join(sep)`. -/
def joinSep (sep : String) : List String → String
  | [] => ""
  | [x] => x
  | x :: rest => x ++ sep ++ joinSep sep rest

/-- `Math.round(num/den)` for non-negative operands, computed over the
exact rational (round half up): `(2*num + den) / (2*den)` in `Nat`. -/
def jsRoundDiv (num den : Nat) : Nat := (2 * num + den) / (2 * den)

/-- JS `s.split(' ').length`: one more than the number of space
characters. -/
def jsSpaceSplitCount (s : String) : Nat :=
  s.toList.countP (fun c => c = ' ') + 1

/-! ## Story analyst agent (`agents/story-analyst.js`) -/

/-- The story object the analyst receives (`input.story`): `title` and
`description` are accessed unguarded, `acceptanceCriteria` is optional
(`story.acceptanceCriteria?.length`). -/
structure AgentStory where
  id : String
  title : String
  description : String
  acceptanceCriteria : Option (List String)
  version : Nat
  deriving Repr, DecidableEq

/-- An improvement suggestion attached to a criterion result. -/
structure Suggestion where
  type : String
  field : String
  currentValue : String
  suggestedValue : String
  reasoning : String
  confidence : Nat
  deriving Repr, DecidableEq

/-- The record each `analyze*` INVEST helper returns. -/
structure CriterionResult where
  score : Bool
  confidence : Nat
  reasoning : String
  suggestions : List Suggestion
  severity : String
  isEditable : Bool
  deriving Repr, DecidableEq

/-- The six INVEST criterion results. -/
structure InvestScore where
  independent : CriterionResult
  negotiable : CriterionResult
  valuable : CriterionResult
  estimable : CriterionResult
  small : CriterionResult
  testable : CriterionResult
  deriving Repr, DecidableEq

/-- `suggestUserRole` (lines 368–376). -/
def suggestUserRole (story : AgentStory) : String :=
  if strIncludes (lowerStr story.title) "admin" then
    "As an administrator, " ++ story.description
  else if strIncludes (lowerStr story.title) "customer"
      || strIncludes (lowerStr story.title) "user" then
    "As a user, " ++ story.description
  else
    "As a [user type], " ++ story.description

/-- `suggestValueStatement` (lines 378–384). -/
def suggestValueStatement (story : AgentStory) : String :=
  if !(hasSubCI story.description "as a" || hasSubCI story.description "as an") then
    suggestUserRole story ++ " so that [value statement]"
  else
    story.description ++ " so that [value statement]"

/-- `analyzeIndependence` (lines 72–93): no
`/after|before|requires|depends on/i` in the description. -/
def analyzeIndependence (story : AgentStory) : CriterionResult :=
  let hasNoDependencies :=
    !(hasSubCI story.description "after" || hasSubCI story.description "before"
      || hasSubCI story.description "requires"
      || hasSubCI story.description "depends on")
  { score := hasNoDependencies
    confidence := 80
    reasoning :=
      if hasNoDependencies then "Story appears to be independent of other stories"
      else "Story contains dependency indicators"
    suggestions :=
      if hasNoDependencies then []
      else [{ type := "modify", field := "description",
              currentValue := story.description,
              suggestedValue := "Consider rephrasing to remove dependencies",
              reasoning := "Independent stories can be developed and delivered separately",
              confidence := 70 }]
    severity := if hasNoDependencies then "low" else "medium"
    isEditable := true }

/-- `analyzeNegotiability` (lines 95–116). -/
def analyzeNegotiability (story : AgentStory) : CriterionResult :=
  let hasImplementationDetails :=
    hasSubCI story.description "must use"
      || hasSubCI story.description "should be implemented"
      || hasSubCI story.description "technical requirement"
  let score := !hasImplementationDetails
  { score := score
    confidence := 70
    reasoning :=
      if score then "Story focuses on user needs rather than implementation"
      else "Story contains implementation details that reduce negotiability"
    suggestions :=
      if score then []
      else [{ type := "modify", field := "description",
              currentValue := story.description,
              suggestedValue := "Focus on what the user needs, not how to implement it",
              reasoning := "Negotiable stories allow for creative solutions",
              confidence := 80 }]
    severity := "low"
    isEditable := true }

/-- `analyzeValue` (lines 118–140). -/
def analyzeValue (story : AgentStory) : CriterionResult :=
  let hasUserValue := strIncludes (lowerStr story.description) "so that"
  let hasUserRole :=
    hasSubCI story.description "as a" || hasSubCI story.description "as an"
  let score := hasUserValue && hasUserRole
  { score := score
    confidence := 90
    reasoning :=
      if score then "Story clearly expresses user value"
      else "Story needs clearer value proposition"
    suggestions :=
      if score then []
      else [{ type := "modify", field := "description",
              currentValue := story.description,
              suggestedValue := suggestValueStatement story,
              reasoning := "Every story should deliver clear value to users",
              confidence := 85 }]
    severity := if score then "low" else "high"
    isEditable := true }

/-- `analyzeEstimability` (lines 142–166). -/
def analyzeEstimability (story : AgentStory) : CriterionResult :=
  let hasEnoughDetail := story.description.length > 50
  let hasCriteria :=
    match story.acceptanceCriteria with
    | some cs => !cs.isEmpty
    | none => false
  let score := hasEnoughDetail && hasCriteria
  { score := score
    confidence := 75
    reasoning :=
      if score then "Story has sufficient detail for estimation"
      else "Story needs more detail to be properly estimated"
    suggestions :=
      if score then []
      else if !hasCriteria then
        [{ type := "add", field := "acceptanceCriteria", currentValue := "",
           suggestedValue := "Given [context], When [action], Then [outcome]",
           reasoning := "Acceptance criteria help with estimation",
           confidence := 90 }]
      else []
    severity := "medium"
    isEditable := true }

/-- `analyzeSize` (lines 168–192): word count plus ten per acceptance
criterion must stay below 100. -/
def analyzeSize (story : AgentStory) : CriterionResult :=
  let wordCount := jsSpaceSplitCount story.description
  let criteriaCount := (story.acceptanceCriteria.getD []).length
  let complexity := wordCount + criteriaCount * 10
  let score := complexity < 100
  { score := score
    confidence := 60
    reasoning :=
      if score then "Story appears to be appropriately sized"
      else "Story may be too large and should be split"
    suggestions :=
      if score then []
      else [{ type := "split", field := "description",
              currentValue := story.description,
              suggestedValue := "Consider splitting this story into smaller pieces",
              reasoning := "Smaller stories are easier to estimate and deliver",
              confidence := 80 }]
    severity := if score then "low" else "high"
    isEditable := false }

/-- One acceptance criterion matches
`/given|when|then|should|must|can/i`. -/
def criterionTestable (c : String) : Bool :=
  hasSubCI c "given" || hasSubCI c "when" || hasSubCI c "then"
    || hasSubCI c "should" || hasSubCI c "must" || hasSubCI c "can"

/-- `analyzeTestability` (lines 194–219). -/
def analyzeTestability (story : AgentStory) : CriterionResult :=
  let hasCriteria :=
    match story.acceptanceCriteria with
    | some cs => !cs.isEmpty
    | none => false
  let criteriaAreTestable :=
    hasCriteria && (story.acceptanceCriteria.getD []).all criterionTestable
  let score := hasCriteria && criteriaAreTestable
  { score := score
    confidence := 85
    reasoning :=
      if score then "Story has clear, testable acceptance criteria"
      else "Story needs testable acceptance criteria"
    suggestions :=
      if score then []
      else [{ type := if hasCriteria then "modify" else "add",
              field := "acceptanceCriteria",
              currentValue :=
                if hasCriteria then joinSep "; " (story.acceptanceCriteria.getD [])
                else "",
              suggestedValue := "Use Given/When/Then format for clear test scenarios",
              reasoning := "Testable stories ensure quality delivery",
              confidence := 90 }]
    severity := if score then "low" else "high"
    isEditable := true }

/-- The size assessment (`assessSize`, lines 221–248). -/
structure SizeAssessment where
  estimatedSize : String
  confidence : Nat
  complexityFactors : List String
  riskFactors : List String
  deriving Repr, DecidableEq

/-- `assessSize`: description length plus fifty per criterion, bucketed
into XS…XXL. -/
def assessSize (story : AgentStory) : SizeAssessment :=
  let description := story.description
  let criteriaCount := (story.acceptanceCriteria.getD []).length
  let complexity := description.length + criteriaCount * 50
  let estimatedSize :=
    if complexity < 100 then "XS"
    else if complexity < 200 then "S"
    else if complexity < 400 then "M"
    else if complexity < 600 then "L"
    else if complexity < 800 then "XL"
    else "XXL"
  { estimatedSize := estimatedSize
    confidence := 70
    complexityFactors :=
      ["Description length", "Number of acceptance criteria",
       "Implied technical complexity"]
    riskFactors :=
      if estimatedSize = "XL" || estimatedSize = "XXL" then
        ["Size may impact delivery timeline", "Consider splitting"]
      else [] }

/-- A quality issue (`findQualityIssues`, lines 250–295). -/
structure QualityIssue where
  id : String
  issue : String
  category : String
  severity : String
  suggestion : String
  autoFixable : Bool
  deriving Repr, DecidableEq

/-- `findQualityIssues`: missing user role, missing value statement,
vague language. -/
def findQualityIssues (story : AgentStory) : List QualityIssue :=
  let issues1 :=
    if !(hasSubCI story.description "as a" || hasSubCI story.description "as an") then
      [{ id := "missing-user-role", issue := "Story missing user role",
         category := "structure", severity := "high",
         suggestion := suggestUserRole story, autoFixable := true }]
    else []
  let issues2 :=
    if !(strIncludes (lowerStr story.description) "so that") then
      [{ id := "missing-value", issue := "Story missing value statement",
         category := "completeness", severity := "high",
         suggestion := suggestValueStatement story, autoFixable := true }]
    else []
  let vagueTerms := ["some", "various", "multiple", "etc", "and so on"]
  let hasVagueLanguage :=
    vagueTerms.any (fun term => strIncludes (lowerStr story.description) term)
  let issues3 :=
    if hasVagueLanguage then
      [{ id := "vague-language", issue := "Story contains vague language",
         category := "clarity", severity := "medium",
         suggestion := "Replace vague terms with specific requirements",
         autoFixable := false }]
    else []
  issues1 ++ issues2 ++ issues3

/-- The six criterion results in `Object.values` order. -/
def investCriteria (inv : InvestScore) : List CriterionResult :=
  [inv.independent, inv.negotiable, inv.valuable, inv.estimable,
   inv.small, inv.testable]

/-- `calculateOverallScore` (lines 297–301):
`Math.round((passedCount / scores.length) * 100)`. -/
def calculateOverallScore (inv : InvestScore) : Nat :=
  let scores := investCriteria inv
  let passedCount := (scores.filter (fun s => s.score)).length
  jsRoundDiv (passedCount * 100) scores.length

/-- The number of INVEST criteria whose heuristic score is true. -/
def countPassed (inv : InvestScore) : Nat :=
  ((investCriteria inv).filter (fun s => s.score)).length

/-- `analysisMetadata` of `performAnalysis`. -/
structure AnalysisMetadata where
  analysisTime : Nat
  confidence : Nat
  tokensUsed : Nat
  modelVersion : String
  deriving Repr, DecidableEq

/-- The value `performAnalysis` resolves to (lines 57–69). -/
structure Analysis where
  investScore : InvestScore
  sizeAssessment : SizeAssessment
  qualityIssues : List QualityIssue
  overallScore : Nat
  readinessLevel : String
  analysisMetadata : AnalysisMetadata
  deriving Repr, DecidableEq

/-- `StoryAnalystAgent.performAnalysis` (lines 35–70), with the JS clock
reading passed explicitly as `now`. -/
def performAnalysis (story : AgentStory) (now : Nat) : Analysis :=
  let investScore : InvestScore :=
    { independent := analyzeIndependence story
      negotiable := analyzeNegotiability story
      valuable := analyzeValue story
      estimable := analyzeEstimability story
      small := analyzeSize story
      testable := analyzeTestability story }
  let sizeAssessment := assessSize story
  let qualityIssues := findQualityIssues story
  let overallScore := calculateOverallScore investScore
  { investScore := investScore
    sizeAssessment := sizeAssessment
    qualityIssues := qualityIssues
    overallScore := overallScore
    readinessLevel :=
      if overallScore ≥ 80 then "ready"
      else if overallScore ≥ 60 then "needs-work"
      else "not-ready"
    analysisMetadata :=
      { analysisTime := now, confidence := 85, tokensUsed := 250,
        modelVersion := "story-analyst-v1" } }

/-- Replace only the clock-derived field of an analysis. -/
def Analysis.withTime (a : Analysis) (t : Nat) : Analysis :=
  { a with analysisMetadata := { a.analysisMetadata with analysisTime := t } }

/-- The claim-side rounding function: mathematical round-half-up on an
exact rational. -/
def ratRound (q : ℚ) : ℤ := ⌊q + 1 / 2⌋

/-! ## Regex machinery for the splitting expert

The splitting expert's regexes are modelled character-by-character:
`\s` as ASCII whitespace, `[^,\.]` as any character other than comma and
period, alternations tried left to right with backtracking, `g`-flag
scans advancing past each match (or one character on failure), `i`-flag
comparisons via `Char.toLower`. -/

/-- An ASCII `\s` character. -/
def wsChar (c : Char) : Bool :=
  c = ' ' || c = '\t' || c = '\n' || c = '\r' || c = '\x0b' || c = '\x0c'

/-- A `[^,\.]` character. -/
def notCommaDot (c : Char) : Bool := !(c = ',' || c = '.')

/-- Case-insensitively strip a literal pattern from the front, returning
the consumed original characters and the remainder. -/
def ciStripPre : List Char → List Char → Option (List Char × List Char)
  | [], cs => some ([], cs)
  | _ :: _, [] => none
  | p :: ps, c :: cs =>
    if p.toLower = c.toLower then
      (ciStripPre ps cs).map (fun r => (c :: r.1, r.2))
    else none

/-- JS `s.trim()`, with `\s` as above. -/
def trimWs (s : String) : String :=
  String.mk (((s.toList.dropWhile wsChar).reverse.dropWhile wsChar).reverse)

/-- One attempt of `/indicator\s+([^,\.]+)/i` at the current position:
after the indicator, greedy `\s+` then greedy `[^,\.]+`, with `\s+`
giving one character back to `[^,\.]+` when the latter would otherwise
be empty.  Returns the matched text and the remainder. -/
def ruleMatchAt (ind : List Char) (cs : List Char) : Option (List Char × List Char) :=
  match ciStripPre ind cs with
  | none => none
  | some r =>
    let ws := r.2.takeWhile wsChar
    let rest1 := r.2.drop ws.length
    if ws.isEmpty then none
    else
      let body := rest1.takeWhile notCommaDot
      if body.isEmpty then
        if 2 ≤ ws.length then some (r.1 ++ ws, rest1) else none
      else some (r.1 ++ ws ++ body, rest1.drop body.length)

/-- `g`-flag scan for `ruleMatchAt`; the fuel argument is one more than
the text length, which a scan can never exhaust since every step
consumes at least one character. -/
def scanRuleAux (ind : List Char) : Nat → List Char → List String
  | 0, _ => []
  | _, [] => []
  | fuel + 1, c :: cs =>
    match ruleMatchAt ind (c :: cs) with
    | some m => String.mk m.1 :: scanRuleAux ind fuel m.2
    | none => scanRuleAux ind fuel cs

/-- `text.match(new RegExp(indicator + "\\s+([^,\\.]+)", "gi"))`,
returning the full matches in order (empty list for a `null` result). -/
def scanRuleMatches (indicator : String) (text : String) : List String :=
  scanRuleAux indicator.toList (text.length + 1) text.toList

/-- The alternation of `simplifyDescription`'s regex. -/
def simpIndicators : List String :=
  ["if", "when", "unless", "depending on", "based on"]

/-- Try each alternative of `(if|when|unless|depending on|based on)`
followed by a non-empty `[^,\.]+` at the current position; return the
remainder after the match. -/
def tryIndicatorsAt : List String → List Char → Option (List Char)
  | [], _ => none
  | ind :: rest, cs =>
    match ciStripPre ind.toList cs with
    | some r =>
      let body := r.2.takeWhile notCommaDot
      if body.isEmpty then tryIndicatorsAt rest cs
      else some (r.2.drop body.length)
    | none => tryIndicatorsAt rest cs

/-- Replace every match of `/\s*(if|when|unless|depending on|based
on)[^,\.]+/gi` with the empty string (the indicators begin with
non-whitespace letters, so `\s*` must consume exactly the whitespace run
before a candidate position). -/
def replaceSimpAux : Nat → List Char → List Char
  | 0, cs => cs
  | _, [] => []
  | fuel + 1, c :: cs =>
    let all := c :: cs
    let rest := all.drop (all.takeWhile wsChar).length
    match tryIndicatorsAt simpIndicators rest with
    | some remaining => replaceSimpAux fuel remaining
    | none => c :: replaceSimpAux fuel cs

/-- Collapse every whitespace run to a single space
(`.replace(/\s+/g, ' ')`). -/
def collapseWsAux : Bool → List Char → List Char
  | _, [] => []
  | prevWs, c :: cs =>
    if wsChar c then
      if prevWs then collapseWsAux true cs
      else ' ' :: collapseWsAux true cs
    else c :: collapseWsAux false cs

/-- `simplifyDescription` (lines 348–354): drop conditional clauses,
collapse whitespace, trim. -/
def simplifyDescription (description : String) : String :=
  trimWs (String.mk (collapseWsAux false
    (replaceSimpAux (description.length + 1) description.toList)))

/-- The alternation of `simplifyAcceptanceCriteria`'s regex. -/
def critPhrases : List String := ["edge case", "special case", "exception"]

/-- Try each alternative of `(edge case|special case|exception)` at the
current position; return the remainder. -/
def tryPhrasesAt : List String → List Char → Option (List Char)
  | [], _ => none
  | p :: rest, cs =>
    match ciStripPre p.toList cs with
    | some r => some r.2
    | none => tryPhrasesAt rest cs

/-- Replace every match of `/\s*(edge case|special case|exception)/gi`
with the empty string. -/
def replacePhrasesAux : Nat → List Char → List Char
  | 0, cs => cs
  | _, [] => []
  | fuel + 1, c :: cs =>
    let all := c :: cs
    let rest := all.drop (all.takeWhile wsChar).length
    match tryPhrasesAt critPhrases rest with
    | some remaining => replacePhrasesAux fuel remaining
    | none => c :: replacePhrasesAux fuel cs

/-- One criterion put through the `simplifyAcceptanceCriteria` map:
strip the phrases, then trim. -/
def stripCritPhrases (s : String) : String :=
  trimWs (String.mk (replacePhrasesAux (s.length + 1) s.toList))

/-- JS `s.split(/[.!?]/)`. -/
def splitOnDelimsAux (cur : List Char) : List Char → List String
  | [] => [String.mk cur.reverse]
  | c :: rest =>
    if c = '.' || c = '!' || c = '?' then
      String.mk cur.reverse :: splitOnDelimsAux [] rest
    else splitOnDelimsAux (c :: cur) rest

/-- Sentence split used by `extractWorkflowSteps`. -/
def jsSplitSentences (s : String) : List String := splitOnDelimsAux [] s.toList

/-! ## Splitting expert agent (`agents/splitting-expert.js`) -/

/-- The slice of the analysis result `detectPatterns` dereferences
(`analysisResult.sizeAssessment.estimatedSize`). -/
structure SplitAnalysisResult where
  sizeAssessment : SizeAssessment
  deriving Repr, DecidableEq

/-- The input of `generateSplitSuggestions`: the story plus the (possibly
absent, i.e. JS `undefined`) analysis result. -/
structure SplitInput where
  story : AgentStory
  analysisResult : Option SplitAnalysisResult
  deriving Repr, DecidableEq

/-- A detected splitting pattern. -/
structure SplitPattern where
  type : String
  name : String
  description : String
  deriving Repr, DecidableEq

/-- A workflow step extracted from the story text. -/
structure WorkStep where
  title : String
  description : String
  criteria : List String
  deriving Repr, DecidableEq

/-- A suggested split draft (elements of `suggestedSplits`). -/
structure SplitDraft where
  id : String
  title : String
  description : String
  acceptanceCriteria : List String
  estimatedSize : String
  priority : Nat
  rationale : String
  deriving Repr, DecidableEq

/-- A business rule extracted by `extractBusinessRules`. -/
structure BusinessRule where
  name : String
  description : String
  criteria : List String
  deriving Repr, DecidableEq

/-- One split suggestion (before the interactive decoration). -/
structure SplitSuggestion where
  id : String
  pattern : SplitPattern
  confidence : Nat
  reasoning : String
  suggestedSplits : List SplitDraft
  implementationOrder : List String
  valueDeliveryStrategy : String
  riskMitigation : List String
  deriving Repr, DecidableEq

/-- The story object `draftToStory` builds (lines 411–422). -/
structure DraftStory where
  id : String
  title : String
  description : String
  acceptanceCriteria : List String
  estimatedSize : String
  status : String
  version : Nat
  lastModified : Nat
  deriving Repr, DecidableEq

/-- A story-board change of `calculateStoryBoardImpact`
(lines 424–449): mark the original split, or add one new story. -/
inductive BoardChange where
  | modifyOriginal (storyId : String) (newStatus : String) (newTitle : String)
  | addSplit (storyId : String) (posX : Nat) (posY : Nat) (parentId : String)
      (changes : DraftStory)
  deriving Repr, DecidableEq

/-- The `userState` decoration. -/
structure UserState where
  status : String
  editHistory : List String
  deriving Repr, DecidableEq

/-- The `preview.beforeAfter` decoration. -/
structure BeforeAfter where
  original : AgentStory
  splits : List DraftStory
  deriving Repr, DecidableEq

/-- The `preview` decoration. -/
structure SuggestionPreview where
  beforeAfter : BeforeAfter
  storyBoardImpact : List BoardChange
  deriving Repr, DecidableEq

/-- The `validation` decoration. -/
structure Validation where
  canApply : Bool
  warnings : List String
  conflicts : List String
  deriving Repr, DecidableEq

/-- An interactive suggestion: the JS object spreads the suggestion's
fields and adds `userState`, `preview` and `validation`; the spread part
is kept as the `base` field. -/
structure InteractiveSuggestion where
  base : SplitSuggestion
  userState : UserState
  preview : SuggestionPreview
  validation : Validation
  deriving Repr, DecidableEq

/-- The `recommendedApproach` part of the result. -/
structure RecommendedApproach where
  primarySuggestion : String
  reasoning : String
  deriving Repr, DecidableEq

/-- The `metadata` part of the result. -/
structure SplitMetadata where
  analysisTime : Nat
  confidence : Nat
  patternsConsidered : List String
  deriving Repr, DecidableEq

/-- The value `generateSplitSuggestions` resolves to. -/
structure SplitResult where
  suggestions : List InteractiveSuggestion
  recommendedApproach : RecommendedApproach
  metadata : SplitMetadata
  deriving Repr, DecidableEq

/-- `PatternDetector.hasWorkflowSteps` (lines 548–552). -/
def workflowIndicators : List String :=
  ["then", "after", "before", "first", "next", "finally", "step"]

def hasWorkflowSteps (story : AgentStory) : Bool :=
  let text := lowerStr (story.description ++ " "
    ++ joinSep " " (story.acceptanceCriteria.getD []))
  workflowIndicators.any (fun indicator => strIncludes text indicator)

/-- `PatternDetector.hasCRUDOperations` (lines 554–558): at least two
CRUD words in the description. -/
def crudWords : List String :=
  ["create", "add", "view", "read", "list", "edit", "update", "delete", "remove"]

def hasCRUDOperations (story : AgentStory) : Bool :=
  let text := lowerStr story.description
  2 ≤ (crudWords.filter (fun word => strIncludes text word)).length

/-- `PatternDetector.hasBusinessRules` (lines 560–564). -/
def businessRuleDetectWords : List String :=
  ["if", "when", "unless", "depending", "based on"]

def hasBusinessRules (story : AgentStory) : Bool :=
  let text := lowerStr (story.description ++ " "
    ++ joinSep " " (story.acceptanceCriteria.getD []))
  businessRuleDetectWords.any (fun indicator => strIncludes text indicator)

/-- `PatternDetector.detectPatterns` (lines 509–546).  Dereferencing
`analysisResult.sizeAssessment` with `analysisResult` undefined throws a
`TypeError`, modelled as the `Except.error` case; the three story-based
checks run before that access. -/
def detectPatterns (story : AgentStory)
    (analysisResult : Option SplitAnalysisResult) :
    Except Unit (List SplitPattern) :=
  let p1 : List SplitPattern :=
    if hasWorkflowSteps story then
      [{ type := "workflow-steps", name := "Workflow Steps",
         description := "Split by user journey steps" }]
    else []
  let p2 : List SplitPattern :=
    if hasCRUDOperations story then
      [{ type := "crud-operations", name := "CRUD Operations",
         description := "Split by Create, Read, Update, Delete operations" }]
    else []
  let p3 : List SplitPattern :=
    if hasBusinessRules story then
      [{ type := "business-rules", name := "Business Rule Variations",
         description := "Split by different business rule scenarios" }]
    else []
  match analysisResult with
  | none => Except.error ()
  | some a =>
    let p4 : List SplitPattern :=
      if a.sizeAssessment.estimatedSize = "XL"
          || a.sizeAssessment.estimatedSize = "XXL" then
        [{ type := "simple-complex", name := "Simple/Complex",
           description := "Start with simple core, add complexity later" }]
      else []
    Except.ok (p1 ++ p2 ++ p3 ++ p4)

/-- The sequential words of `extractWorkflowSteps` (line 209). -/
def sequentialWords : List String := ["first", "then", "next", "after", "finally"]

/-- `extractWorkflowSteps` (lines 204–236): sentences of the lowercased
description holding a sequential word become steps; otherwise acceptance
criteria holding `when` become scenarios (keeping their original
index in the scenario number). -/
def extractWorkflowSteps (story : AgentStory) : List WorkStep :=
  let description := lowerStr story.description
  let sentences := jsSplitSentences description
  let steps := sentences.foldl (fun steps sentence =>
    if sequentialWords.any (fun word => strIncludes sentence word) then
      steps ++ [{ title := "Step " ++ toString (steps.length + 1),
                  description := trimWs sentence,
                  criteria := [trimWs sentence ++ " is completed successfully"] }]
    else steps) []
  if steps.isEmpty then
    match story.acceptanceCriteria with
    | none => []
    | some cs =>
      cs.enum.filterMap (fun p =>
        if strIncludes (lowerStr p.2) "when" then
          some { title := "Scenario " ++ toString (p.1 + 1),
                 description := p.2, criteria := [p.2] }
        else none)
  else steps

/-- `estimateStepSize` (lines 380–387). -/
def estimateStepSize (step : WorkStep) : String :=
  let complexity := step.description.length + step.criteria.length * 20
  if complexity < 50 then "XS"
  else if complexity < 100 then "S"
  else if complexity < 200 then "M"
  else "L"

/-- `generateWorkflowSplits` (lines 67–93). -/
def generateWorkflowSplits (input : SplitInput) (pattern : SplitPattern)
    (now : Nat) : Option SplitSuggestion :=
  let story := input.story
  let steps := extractWorkflowSteps story
  if steps.length < 2 then none
  else
    let suggestedSplits := steps.enum.map (fun p =>
      ({ id := "split-" ++ toString now ++ "-" ++ toString p.1
         title := p.2.title
         description := p.2.description
         acceptanceCriteria := p.2.criteria
         estimatedSize := estimateStepSize p.2
         priority := p.1 + 1
         rationale := "Step " ++ toString (p.1 + 1) ++ " of the workflow" }
        : SplitDraft))
    some { id := "suggestion-workflow-" ++ toString now
           pattern := pattern
           confidence := 80
           reasoning := "Story contains multiple workflow steps that can be delivered independently"
           suggestedSplits := suggestedSplits
           implementationOrder := suggestedSplits.map SplitDraft.id
           valueDeliveryStrategy := "Deliver each workflow step incrementally"
           riskMitigation := ["Ensure each step provides value independently"] }

/-- The CRUD keyword table (lines 240–253), in JS object insertion
order. -/
def crudMap : List (String × String) :=
  [("create", "Create"), ("add", "Create"), ("new", "Create"),
   ("read", "Read"), ("view", "Read"), ("list", "Read"), ("show", "Read"),
   ("update", "Update"), ("edit", "Update"), ("modify", "Update"),
   ("delete", "Delete"), ("remove", "Delete")]

/-- `extractEntities` (lines 272–284). -/
def commonEntities : List String :=
  ["user", "product", "order", "item", "profile", "account", "data",
   "information"]

def extractEntities (text : String) : List String :=
  let entities := commonEntities.filter (fun entity => strIncludes text entity)
  if entities.isEmpty then ["item"] else entities

/-- `extractCRUDOperations` (lines 238–270): pairs
`(operation, entity)`, duplicates dropped keeping the first
occurrence. -/
def extractCRUDOperations (story : AgentStory) : List (String × String) :=
  let text := lowerStr (story.description ++ " " ++ story.title)
  let entities := extractEntities text
  let operations := crudMap.foldl (fun ops kw =>
    if strIncludes text kw.1 then ops ++ entities.map (fun e => (kw.2, e))
    else ops) []
  operations.foldl (fun acc op => if acc.contains op then acc else acc ++ [op]) []

/-- `generateCRUDCriteria` (lines 310–336). -/
def generateCRUDCriteria (operation : String × String) : List String :=
  match operation.1 with
  | "Create" =>
    ["User can create new " ++ operation.2, "Required fields are validated",
     "Success message is displayed"]
  | "Read" =>
    ["User can view " ++ operation.2 ++ " details",
     "All relevant information is displayed"]
  | "Update" =>
    ["User can edit existing " ++ operation.2, "Changes are saved successfully",
     "Validation prevents invalid updates"]
  | "Delete" =>
    ["User can delete " ++ operation.2,
     "Confirmation is required before deletion",
     "Deleted items are removed from view"]
  | _ => []

/-- `getCRUDPriority` (lines 338–346). -/
def getCRUDPriority (operation : String) : Nat :=
  match operation with
  | "Read" => 1
  | "Create" => 2
  | "Update" => 3
  | "Delete" => 4
  | _ => 5

/-- Stable insertion into a priority-sorted list (earlier elements stay
before equal-priority later ones, as the ES2019 stable
`Array.prototype.sort` with comparator `a.priority - b.priority`). -/
def insertByPriority (d : SplitDraft) : List SplitDraft → List SplitDraft
  | [] => [d]
  | e :: es =>
    if d.priority ≤ e.priority then d :: e :: es else e :: insertByPriority d es

/-- Stable sort by `priority`. -/
def sortByPriority (l : List SplitDraft) : List SplitDraft :=
  l.foldr insertByPriority []

/-- `generateCRUDSplits` (lines 95–121).  JS sorts `suggestedSplits` in
place while building `implementationOrder`, so the returned
`suggestedSplits` array is the sorted one. -/
def generateCRUDSplits (input : SplitInput) (pattern : SplitPattern)
    (now : Nat) : Option SplitSuggestion :=
  let story := input.story
  let operations := extractCRUDOperations story
  if operations.length < 2 then none
  else
    let suggestedSplits := operations.enum.map (fun p =>
      ({ id := "split-" ++ toString now ++ "-" ++ toString p.1
         title := p.2.2 ++ " - " ++ p.2.1
         description := "As a user, I can " ++ lowerStr p.2.1 ++ " " ++ p.2.2
         acceptanceCriteria := generateCRUDCriteria p.2
         estimatedSize := if p.2.1 = "Create" || p.2.1 = "Delete" then "S" else "M"
         priority := getCRUDPriority p.2.1
         rationale := p.2.1 ++ " operation for " ++ p.2.2 } : SplitDraft))
    let sorted := sortByPriority suggestedSplits
    some { id := "suggestion-crud-" ++ toString now
           pattern := pattern
           confidence := 85
           reasoning := "Story involves multiple CRUD operations that can be split"
           suggestedSplits := sorted
           implementationOrder := sorted.map SplitDraft.id
           valueDeliveryStrategy := "Start with Read operations, then Create, Update, and Delete"
           riskMitigation := ["Ensure data model is well-defined before starting"] }

/-- The rule indicators of `extractBusinessRules` (line 288). -/
def ruleIndicators : List String :=
  ["if", "when", "unless", "depending on", "based on"]

/-- `extractBusinessRules` (lines 286–308): for each indicator, every
regex match becomes a rule, numbered within that indicator's match
list. -/
def extractBusinessRules (story : AgentStory) : List BusinessRule :=
  let text := story.description ++ " "
    ++ joinSep " " (story.acceptanceCriteria.getD [])
  ruleIndicators.foldl (fun rules indicator =>
    let found := scanRuleMatches indicator text
    rules ++ found.enum.map (fun p =>
      { name := "Rule " ++ toString (p.1 + 1)
        description := p.2
        criteria := ["System handles case: " ++ p.2] })) []

/-- `generateBusinessRuleSplits` (lines 123–165). -/
def generateBusinessRuleSplits (input : SplitInput) (pattern : SplitPattern)
    (now : Nat) : Option SplitSuggestion :=
  let story := input.story
  let rules := extractBusinessRules story
  if rules.length < 2 then none
  else
    let firstSplit : SplitDraft :=
      { id := "split-" ++ toString now ++ "-0"
        title := story.title ++ " - Basic Flow"
        description := story.description ++ " (basic scenario without special cases)"
        acceptanceCriteria := ["Basic functionality works as expected"]
        estimatedSize := "S"
        priority := 1
        rationale := "Core functionality without edge cases" }
    let suggestedSplits := firstSplit :: rules.enum.map (fun p =>
      ({ id := "split-" ++ toString now ++ "-" ++ toString (p.1 + 1)
         title := story.title ++ " - " ++ p.2.name
         description := p.2.description
         acceptanceCriteria := p.2.criteria
         estimatedSize := "S"
         priority := p.1 + 2
         rationale := "Handle " ++ p.2.name ++ " scenario" } : SplitDraft))
    some { id := "suggestion-rules-" ++ toString now
           pattern := pattern
           confidence := 75
           reasoning := "Story contains multiple business rules that can be implemented separately"
           suggestedSplits := suggestedSplits
           implementationOrder := suggestedSplits.map SplitDraft.id
           valueDeliveryStrategy := "Implement core functionality first, then add business rules"
           riskMitigation := ["Document all business rules clearly", "Test edge cases thoroughly"] }

/-- `simplifyAcceptanceCriteria` (lines 356–365). -/
def simplifyAcceptanceCriteria (criteria : Option (List String)) : List String :=
  match criteria with
  | none => ["Basic functionality works as expected"]
  | some cs =>
    if cs.isEmpty then ["Basic functionality works as expected"]
    else (cs.take 2).map stripCritPhrases

/-- A criterion matching
`/edge case|special case|exception|complex|advanced/i`. -/
def complexCriterion (c : String) : Bool :=
  hasSubCI c "edge case" || hasSubCI c "special case" || hasSubCI c "exception"
    || hasSubCI c "complex" || hasSubCI c "advanced"

/-- `extractComplexCriteria` (lines 367–378). -/
def extractComplexCriteria (criteria : Option (List String)) : List String :=
  match criteria with
  | none => ["Handle edge cases and exceptions"]
  | some cs =>
    if cs.isEmpty then ["Handle edge cases and exceptions"]
    else
      let complexCriteria := cs.filter complexCriterion
      if complexCriteria.isEmpty then ["Handle advanced scenarios"]
      else complexCriteria

/-- `generateSimpleComplexSplits` (lines 167–202). -/
def generateSimpleComplexSplits (input : SplitInput) (pattern : SplitPattern)
    (now : Nat) : Option SplitSuggestion :=
  let story := input.story
  let suggestedSplits : List SplitDraft :=
    [{ id := "split-" ++ toString now ++ "-0"
       title := story.title ++ " - Basic Version"
       description := simplifyDescription story.description
       acceptanceCriteria := simplifyAcceptanceCriteria story.acceptanceCriteria
       estimatedSize := "M"
       priority := 1
       rationale := "Simplified version with core functionality only" },
     { id := "split-" ++ toString now ++ "-1"
       title := story.title ++ " - Enhanced Features"
       description := "Add advanced features and edge case handling"
       acceptanceCriteria := extractComplexCriteria story.acceptanceCriteria
       estimatedSize := "M"
       priority := 2
       rationale := "Additional features and complexity" }]
  some { id := "suggestion-simple-complex-" ++ toString now
         pattern := pattern
         confidence := 70
         reasoning := "Story is complex and can be split into simple and advanced versions"
         suggestedSplits := suggestedSplits
         implementationOrder := suggestedSplits.map SplitDraft.id
         valueDeliveryStrategy := "Deliver simple version first, then enhance"
         riskMitigation := ["Ensure simple version is valuable on its own"] }

/-- `generateSuggestionForPattern` (lines 52–65). -/
def generateSuggestionForPattern (input : SplitInput) (pattern : SplitPattern)
    (now : Nat) : Option SplitSuggestion :=
  match pattern.type with
  | "workflow-steps" => generateWorkflowSplits input pattern now
  | "crud-operations" => generateCRUDSplits input pattern now
  | "business-rules" => generateBusinessRuleSplits input pattern now
  | "simple-complex" => generateSimpleComplexSplits input pattern now
  | _ => none

/-- `createSplitSuggestions` (lines 39–50): keep the non-null
suggestions. -/
def createSplitSuggestions (input : SplitInput) (patterns : List SplitPattern)
    (now : Nat) : List SplitSuggestion :=
  patterns.filterMap (fun pattern => generateSuggestionForPattern input pattern now)

/-- `draftToStory` (lines 411–422). -/
def draftToStory (draft : SplitDraft) (now : Nat) : DraftStory :=
  { id := draft.id
    title := draft.title
    description := draft.description
    acceptanceCriteria := draft.acceptanceCriteria
    estimatedSize := draft.estimatedSize
    status := "draft"
    version := 1
    lastModified := now }

/-- `calculateStoryBoardImpact` of the splitting expert (lines 424–449);
`input.story.id || 'original'` reads the empty string as falsy. -/
def calcSplitBoardImpact (suggestion : SplitSuggestion) (input : SplitInput)
    (now : Nat) : List BoardChange :=
  BoardChange.modifyOriginal
      (if input.story.id = "" then "original" else input.story.id)
      "split" (input.story.title ++ " (SPLIT)")
    :: suggestion.suggestedSplits.enum.map (fun p =>
        BoardChange.addSplit p.2.id (p.1 * 200) 100 input.story.id
          (draftToStory p.2 now))

/-- One suggestion decorated by `createInteractiveSuggestions`
(lines 389–409). -/
def mkInteractive (input : SplitInput) (now : Nat)
    (suggestion : SplitSuggestion) : InteractiveSuggestion :=
  { base := suggestion
    userState := { status := "suggested", editHistory := [] }
    preview :=
      { beforeAfter :=
          { original := input.story
            splits := suggestion.suggestedSplits.map
              (fun draft => draftToStory draft now) }
        storyBoardImpact := calcSplitBoardImpact suggestion input now }
    validation := { canApply := true, warnings := [], conflicts := [] } }

/-- `createInteractiveSuggestions`. -/
def createInteractiveSuggestions (suggestions : List SplitSuggestion)
    (input : SplitInput) (now : Nat) : List InteractiveSuggestion :=
  suggestions.map (mkInteractive input now)

/-- The callback of the `reduce` in `selectRecommendedApproach`
(lines 460–462): keep the current element only when strictly more
confident. -/
def pickBest (prev current : InteractiveSuggestion) : InteractiveSuggestion :=
  if prev.base.confidence < current.base.confidence then current else prev

/-- `selectRecommendedApproach` (lines 451–468). -/
def selectRecommendedApproach
    (suggestions : List InteractiveSuggestion) : RecommendedApproach :=
  match suggestions with
  | [] =>
    { primarySuggestion := "no-split"
      reasoning := "Story is already appropriately sized" }
  | s :: rest =>
    let best := rest.foldl pickBest s
    { primarySuggestion := best.base.id, reasoning := best.base.reasoning }

/-- `calculateOverallConfidence` (lines 470–475):
`Math.round(avg * 100) / 100` over confidences in hundredths is the
half-up rounding of `sum / length`. -/
def calculateOverallConfidence (suggestions : List InteractiveSuggestion) : Nat :=
  if suggestions.isEmpty then 90
  else jsRoundDiv ((suggestions.map (fun s => s.base.confidence)).sum)
    suggestions.length

/-- `createNoSplitResult` (lines 477–490); the JS `story` argument is
unused beyond being discarded. -/
def createNoSplitResult (reason : String) (now : Nat) : SplitResult :=
  { suggestions := []
    recommendedApproach := { primarySuggestion := "no-split", reasoning := reason }
    metadata := { analysisTime := now, confidence := 90, patternsConsidered := [] } }

/-- `createFallbackSuggestions` (lines 492–505). -/
def createFallbackSuggestions (now : Nat) : SplitResult :=
  { suggestions := []
    recommendedApproach :=
      { primarySuggestion := "manual"
        reasoning := "Automated splitting unavailable - manual splitting recommended" }
    metadata :=
      { analysisTime := now, confidence := 30, patternsConsidered := ["manual"] } }

/-- `SplittingExpertAgent.generateSplitSuggestions` (lines 8–37): the
`try/catch` returns the fallback on an internal error, the empty pattern
list returns the no-split result, otherwise the suggestions pipeline
runs. -/
def generateSplitSuggestions (input : SplitInput) (now : Nat) : SplitResult :=
  match detectPatterns input.story input.analysisResult with
  | Except.error _ => createFallbackSuggestions now
  | Except.ok [] => createNoSplitResult "Story is already appropriately sized" now
  | Except.ok applicablePatterns =>
    let suggestions := createSplitSuggestions input applicablePatterns now
    let interactiveSuggestions := createInteractiveSuggestions suggestions input now
    { suggestions := interactiveSuggestions
      recommendedApproach := selectRecommendedApproach interactiveSuggestions
      metadata :=
        { analysisTime := now
          confidence := calculateOverallConfidence interactiveSuggestions
          patternsConsidered := applicablePatterns.map SplitPattern.type } }

/-! ## Clock-erasure projections (for the determinism claim) -/

/-- Blank the clock-derived id of a split draft. -/
def scrubDraft (d : SplitDraft) : SplitDraft := { d with id := "" }

/-- Blank the clock-derived fields of a draft story. -/
def scrubDraftStory (d : DraftStory) : DraftStory :=
  { d with id := "", lastModified := 0 }

/-- The draft story built from an id-blanked draft at clock zero. -/
def draftStoryOfScrub (sd : SplitDraft) : DraftStory :=
  { id := ""
    title := sd.title
    description := sd.description
    acceptanceCriteria := sd.acceptanceCriteria
    estimatedSize := sd.estimatedSize
    status := "draft"
    version := 1
    lastModified := 0 }

/-- Blank the clock-derived fields of a board change. -/
def scrubChange : BoardChange → BoardChange
  | .modifyOriginal sid st t => .modifyOriginal sid st t
  | .addSplit _ x y p ch => .addSplit "" x y p (scrubDraftStory ch)

/-- Blank the clock-derived fields of a suggestion. -/
def scrubSuggestion (s : SplitSuggestion) : SplitSuggestion :=
  { s with
    id := ""
    suggestedSplits := s.suggestedSplits.map scrubDraft
    implementationOrder := s.implementationOrder.map (fun _ => "") }

/-- Blank the clock-derived fields of an interactive suggestion. -/
def scrubInteractive (s : InteractiveSuggestion) : InteractiveSuggestion :=
  { base := scrubSuggestion s.base
    userState := s.userState
    preview :=
      { beforeAfter :=
          { original := s.preview.beforeAfter.original
            splits := s.preview.beforeAfter.splits.map scrubDraftStory }
        storyBoardImpact := s.preview.storyBoardImpact.map scrubChange }
    validation := s.validation }

/-- Blank the clock-derived fields of a split result: the analysis time,
every `Date.now()`-based id, and (when a best suggestion was picked) the
id it is referred to by. -/
def scrubResult (r : SplitResult) : SplitResult :=
  { suggestions := r.suggestions.map scrubInteractive
    recommendedApproach :=
      { primarySuggestion :=
          if r.suggestions.isEmpty then r.recommendedApproach.primarySuggestion
          else ""
        reasoning := r.recommendedApproach.reasoning }
    metadata := { r.metadata with analysisTime := 0 } }

/-! ## Concrete agent inputs used in witnesses and counterexamples -/

/-- A minimal story for the agents. -/
def demoAgentStory : AgentStory :=
  { id := "s1", title := "t", description := "a",
    acceptanceCriteria := none, version := 1 }

/-- A splitting input whose `analysisResult` is absent (JS `undefined`),
driving the agent into its `catch` fallback. -/
def demoSplitInput : SplitInput :=
  { story := demoAgentStory, analysisResult := none }

/-- A story matching no splitting pattern. -/
def noPatternStory : AgentStory :=
  { id := "w", title := "x", description := "z",
    acceptanceCriteria := none, version := 1 }

/-- An input with no detectable pattern and a present analysis result. -/
def noPatternInput : SplitInput :=
  { story := noPatternStory
    analysisResult := some { sizeAssessment :=
      { estimatedSize := "M", confidence := 70,
        complexityFactors := [], riskFactors := [] } } }

end StorySplitter

namespace StorySplitter

/-! ## Helper lemmas -/

theorem alookup_adel_ne {α : Type} (st : List (String × α)) (k k2 : String)
    (h : k2 ≠ k) : alookup (adel st k) k2 = alookup st k2 := by
  induction st with
  | nil => simp [adel, alookup]
  | cons p rest ih =>
    obtain ⟨k3, v3⟩ := p
    by_cases h3 : k3 = k <;> by_cases h4 : k3 = k2 <;>
      simp_all [adel, alookup, List.filter]

theorem alookup_aset_self {α : Type} (st : List (String × α)) (k : String) (v : α) :
    alookup (aset st k v) k = some v := by
  induction st with
  | nil => simp [aset, alookup]
  | cons p rest ih =>
    obtain ⟨k2, v2⟩ := p
    by_cases h : k2 = k <;> simp [aset, alookup, h, ih]

theorem alookup_aset_ne {α : Type} (st : List (String × α)) (k k2 : String) (v : α)
    (h : k2 ≠ k) : alookup (aset st k v) k2 = alookup st k2 := by
  have hk : k ≠ k2 := fun hh => h hh.symm
  induction st with
  | nil => simp [aset, alookup, hk]
  | cons p rest ih =>
    obtain ⟨k3, v3⟩ := p
    by_cases h3 : k3 = k
    · subst h3
      simp [aset, alookup, hk]
    · simp only [aset, if_neg h3, alookup]
      by_cases h4 : k3 = k2 <;> simp [h4, ih]

theorem alookup_adel_self {α : Type} (st : List (String × α)) (k : String) :
    alookup (adel st k) k = none := by
  induction st with
  | nil => simp [adel, alookup]
  | cons p rest ih =>
    obtain ⟨k2, v2⟩ := p
    by_cases h : k2 = k <;> simp_all [adel, alookup, List.filter]

/-- A mutation addressed at a different key leaves a key's value alone. -/
theorem alookup_applyOp_ne (st : Store) (o : StoreOp) (id : String)
    (h : o.key ≠ id) : alookup (applyOp st o) id = alookup st id := by
  cases o with
  | post genId b now =>
    simp only [StoreOp.key] at h
    simpa [applyOp, postStory] using
      alookup_aset_ne st (mkPostStory genId b now).id id (mkPostStory genId b now)
        (Ne.symm h)
  | put pid b now =>
    simp only [StoreOp.key] at h
    cases hl : alookup st pid with
    | none => simp [applyOp, putStory, hl]
    | some s =>
      simpa [applyOp, putStory, hl] using
        alookup_aset_ne st pid id (putUpdate s b pid now) (Ne.symm h)
  | del pid =>
    simp only [StoreOp.key] at h
    cases h2 : (alookup st pid).isSome with
    | false => simp [applyOp, deleteStory, h2]
    | true =>
      simpa [applyOp, deleteStory, h2] using alookup_adel_ne st pid id (Ne.symm h)

/-- Core of the last-write-wins law: after any trace, the value stored at
a key is exactly the replay of the trace's operations on that key alone,
starting from the key's initial value. -/
theorem alookup_applyOps (st : Store) (ops : List StoreOp) (id : String) :
    alookup (applyOps st ops) id = lastWriteOn (alookup st id) (opsOn id ops) := by
  induction ops generalizing st with
  | nil => rfl
  | cons o rest ih =>
    show alookup (applyOps (applyOp st o) rest) id = _
    rw [ih]
    by_cases hk : o.key = id
    · have hfilter : opsOn id (o :: rest) = o :: opsOn id rest := by
        simp [opsOn, List.filter_cons, hk]
      rw [hfilter]
      cases o with
      | post genId b now =>
        simp only [StoreOp.key] at hk
        simp only [lastWriteOn]
        congr 1
        have hid : (mkPostStory genId b now).id = id := hk
        simpa [applyOp, postStory, hid] using
          alookup_aset_self st (mkPostStory genId b now).id (mkPostStory genId b now)
      | put pid b now =>
        simp only [StoreOp.key] at hk
        subst hk
        simp only [lastWriteOn]
        congr 1
        cases hl : alookup st pid with
        | none => simp [applyOp, putStory, hl]
        | some s =>
          simpa [applyOp, putStory, hl] using
            alookup_aset_self st pid (putUpdate s b pid now)
      | del pid =>
        simp only [StoreOp.key] at hk
        subst hk
        simp only [lastWriteOn]
        congr 1
        cases hl : alookup st pid with
        | none => simp [applyOp, deleteStory, hl]
        | some s => simpa [applyOp, deleteStory, hl] using alookup_adel_self st pid
    · have hfilter : opsOn id (o :: rest) = opsOn id rest := by
        simp [opsOn, List.filter_cons, hk]
      rw [hfilter, alookup_applyOp_ne st o id hk]

/-! ## Presence invariant lemmas -/

theorem map_id_filter (users : List Member) (x : String) :
    (users.filter (fun u => u.id ≠ x)).map Member.id
      = (users.map Member.id).filter (fun i => i ≠ x) := by
  induction users with
  | nil => rfl
  | cons u rest ih =>
    by_cases h : u.id = x <;> simp_all [List.filter_cons, h]

theorem connectedUsers_invariant (evs : List PresenceEvent) (users : List Member)
    (cur : List String) (hids : users.map Member.id = cur) (hnd : cur.Nodup)
    (hwf : presenceWF cur evs = true) :
    (evs.foldl stepConnectedUsers users).map Member.id
        = evs.foldl connectedIdsStep cur
    ∧ (evs.foldl connectedIdsStep cur).Nodup := by
  induction evs generalizing users cur with
  | nil => exact ⟨hids, hnd⟩
  | cons e rest ih =>
    cases e with
    | subscriptionSucceeded ms =>
      simp only [presenceWF, Bool.and_eq_true] at hwf
      exact ih ms (ms.map Member.id) rfl (of_decide_eq_true hwf.1) hwf.2
    | memberAdded m =>
      simp only [presenceWF, Bool.and_eq_true] at hwf
      have hnotin : m.id ∉ cur := by simpa using hwf.1
      refine ih (users ++ [m]) (cur ++ [m.id]) (by simp [hids]) ?_ hwf.2
      simp [List.nodup_append, hnd, hnotin]
    | memberRemoved m =>
      simp only [presenceWF, Bool.and_eq_true] at hwf
      refine ih (users.filter (fun u => u.id ≠ m.id)) (cur.filter (fun i => i ≠ m.id))
        ?_ (hnd.filter _) hwf.2
      rw [map_id_filter, hids]

/-! ## Claim theorems: server store and collaboration -/

/-- C2.  The in-memory story store is a plain keyed map with
last-write-wins: after any sequence of POST/PUT/DELETE operations,
`GET /api/stories/:id` returns exactly the value left by replaying only
that id's operations over the id's initial value (`404 Story not found`
when it was never written or was deleted), independently of every
operation on other ids. -/
theorem story_store_last_write_wins (st : Store) (ops : List StoreOp) (id : String) :
    getStoryEndpoint (applyOps st ops) id =
      match lastWriteOn (alookup st id) (opsOn id ops) with
      | some s => (200, Except.ok s)
      | none => (404, Except.error "Story not found") := by
  simp only [getStoryEndpoint, alookup_applyOps]

/-- C4 (code bug).  `PUT /api/stories/1` with the pusher client
configured triggers exactly one `story-updated` event carrying the
updated story — but on channel `presence-story-1`, while the client
hook's `subscribeToStory` binds its `story-updated`/`story-published`
callbacks on channel `private-story-1`: the two channel names differ, so
the broadcast never reaches the hook's subscribers. -/
theorem put_broadcast_channel_mismatch :
    (putStory demoStore "1" {} 5 true).events =
      [{ channel := serverStoryUpdateChannel "1", event := "story-updated",
         storyId := "1", changes := putUpdate demoStory {} "1" 5, timestamp := 5 }]
    ∧ serverStoryUpdateChannel "1" = "presence-story-1"
    ∧ subscribeToStoryChannel "1" = "private-story-1"
    ∧ "story-updated" ∈ subscribeToStoryEvents
    ∧ serverStoryUpdateChannel "1" ≠ subscribeToStoryChannel "1" := by
  refine ⟨rfl, rfl, rfl, by decide, by decide⟩

/-- C5.  The hook's `connectedUsers` list tracks presence-channel
membership: under the channel service's guarantees (initial member list
duplicate-free, members added only while absent and removed only while
present), after any sequence of presence events every currently
connected member id appears exactly once in `connectedUsers` and no
disconnected member appears. -/
theorem connectedUsers_tracks_membership (evs : List PresenceEvent)
    (hwf : presenceWF [] evs = true) :
    ((runConnectedUsers evs).map Member.id).Nodup
    ∧ (runConnectedUsers evs).map Member.id = connectedIds evs := by
  have h := connectedUsers_invariant evs [] [] rfl List.nodup_nil hwf
  exact ⟨h.1 ▸ h.2, h.1⟩

/-- Witness for C5 at a concrete event sequence. -/
theorem connectedUsers_tracks_membership_witness :
    ((runConnectedUsers
        [PresenceEvent.subscriptionSucceeded [⟨"a", "infoA"⟩],
         PresenceEvent.memberAdded ⟨"b", "infoB"⟩,
         PresenceEvent.memberRemoved ⟨"a", "infoA"⟩]).map Member.id).Nodup
    ∧ (runConnectedUsers
        [PresenceEvent.subscriptionSucceeded [⟨"a", "infoA"⟩],
         PresenceEvent.memberAdded ⟨"b", "infoB"⟩,
         PresenceEvent.memberRemoved ⟨"a", "infoA"⟩]).map Member.id =
        connectedIds
          [PresenceEvent.subscriptionSucceeded [⟨"a", "infoA"⟩],
           PresenceEvent.memberAdded ⟨"b", "infoB"⟩,
           PresenceEvent.memberRemoved ⟨"a", "infoA"⟩] :=
  connectedUsers_tracks_membership _ (by decide)

/-- C7.  A handled `client-typing` event adds a `typingUsers` entry for
`data.userId` exactly when `data.isTyping` is true and `data.userId`
differs from the current user's id; in every other case the entry for
`data.userId` is removed.  Entries for other users are untouched. -/
theorem handleTyping_remote_only (currentUserId : String) (d : TypingData)
    (prev : List (String × Bool)) :
    alookup (handleTyping currentUserId d prev) d.userId
      = (if d.isTyping ∧ d.userId ≠ currentUserId then some true else none)
    ∧ ∀ k : String, k ≠ d.userId →
        alookup (handleTyping currentUserId d prev) k = alookup prev k := by
  constructor
  · by_cases h : d.isTyping ∧ d.userId ≠ currentUserId
    · simp [handleTyping, h, alookup_aset_self]
    · simp [handleTyping, h, alookup_adel_self]
  · intro k hk
    by_cases h : d.isTyping ∧ d.userId ≠ currentUserId
    · simp [handleTyping, h, alookup_aset_ne prev d.userId k true hk]
    · simp [handleTyping, h, alookup_adel_ne prev d.userId k hk]

/-- Witness for C7 at a concrete event and map. -/
theorem handleTyping_remote_only_witness :
    alookup (handleTyping "me" ⟨"other", true⟩ []) "other"
      = (if (true : Bool) = true ∧ ("other" : String) ≠ "me" then some true else none)
    ∧ alookup (handleTyping "me" ⟨"other", true⟩ []) "third" = alookup [] "third" := by
  refine ⟨?_, (handleTyping_remote_only "me" ⟨"other", true⟩ []).2 "third" (by decide)⟩
  have h := (handleTyping_remote_only "me" ⟨"other", true⟩ []).1
  simpa using h

/-- C8.  A `PUT /api/stories/:id` on an existing story stores a result
whose `id` is the path id and whose `version` is the previous stored
version plus one — a body-supplied `id` or `version` cannot override
them (the statement quantifies over every body, including those carrying
`id`/`version` fields) — and every field absent from the body keeps its
previous stored value. -/
theorem put_frame_and_version (st : Store) (id : String) (b : StoryPatch)
    (now : Nat) (s : Story) (h : alookup st id = some s) :
    (putStory st id b now true).body = Except.ok (putUpdate s b id now)
    ∧ alookup (putStory st id b now true).store id = some (putUpdate s b id now)
    ∧ (putUpdate s b id now).id = id
    ∧ (putUpdate s b id now).version = s.version + 1
    ∧ (b.title = none → (putUpdate s b id now).title = s.title)
    ∧ (b.description = none → (putUpdate s b id now).description = s.description)
    ∧ (b.content = none → (putUpdate s b id now).content = s.content)
    ∧ (b.parentStoryId = none → (putUpdate s b id now).parentStoryId = s.parentStoryId)
    ∧ (b.epicId = none → (putUpdate s b id now).epicId = s.epicId)
    ∧ (b.priority = none → (putUpdate s b id now).priority = s.priority)
    ∧ (b.effort = none → (putUpdate s b id now).effort = s.effort)
    ∧ (b.storyPoints = none → (putUpdate s b id now).storyPoints = s.storyPoints)
    ∧ (b.acceptanceCriteria = none →
        (putUpdate s b id now).acceptanceCriteria = s.acceptanceCriteria)
    ∧ (b.status = none → (putUpdate s b id now).status = s.status)
    ∧ (b.hasSplits = none → (putUpdate s b id now).hasSplits = s.hasSplits)
    ∧ (putUpdate s b id now).createdAt = s.createdAt
    ∧ (putUpdate s b id now).createdFrom = s.createdFrom := by
  refine ⟨by simp [putStory, h], ?_, rfl, ?_, ?_, ?_, ?_, ?_, ?_, ?_, ?_, ?_, ?_, ?_, ?_,
    rfl, rfl⟩
  · simp [putStory, h, alookup_aset_self]
  · by_cases hv : s.version = 0 <;> simp [putUpdate, hv]
  all_goals intro hb
  all_goals simp [putUpdate, hb]

/-- Witness for C8 on the demo store with a body that tries to override
`id` and `version`. -/
theorem put_frame_and_version_witness :
    (putUpdate demoStory { id := some "evil", version := some 99 } "1" 7).id = "1"
    ∧ (putUpdate demoStory { id := some "evil", version := some 99 } "1" 7).version
        = demoStory.version + 1
    ∧ (putUpdate demoStory { id := some "evil", version := some 99 } "1" 7).title
        = demoStory.title := by
  have h := put_frame_and_version demoStore "1"
    { id := some "evil", version := some 99 } 7 demoStory rfl
  exact ⟨h.2.2.1, h.2.2.2.1, h.2.2.2.2.1 rfl⟩

/-- C9.  `GET`, `PUT` and `DELETE /api/stories/:id` on an id that is not
a key of the store all answer `404` with error `Story not found` and
leave the store untouched; `DELETE` on an existing id answers `204` and
removes exactly that entry, leaving every other entry unchanged. -/
theorem story_endpoints_404_and_delete (st : Store) (id : String)
    (b : StoryPatch) (now : Nat) :
    (alookup st id = none →
        getStoryEndpoint st id = (404, Except.error "Story not found")
        ∧ (putStory st id b now true).status = 404
        ∧ (putStory st id b now true).body = Except.error "Story not found"
        ∧ (putStory st id b now true).store = st
        ∧ (putStory st id b now true).events = []
        ∧ (deleteStory st id).1 = (404, Except.error "Story not found")
        ∧ (deleteStory st id).2 = st)
    ∧ (∀ s : Story, alookup st id = some s →
        (deleteStory st id).1 = (204, Except.ok ())
        ∧ alookup (deleteStory st id).2 id = none
        ∧ ∀ k : String, k ≠ id → alookup (deleteStory st id).2 k = alookup st k) := by
  constructor
  · intro h
    refine ⟨by simp [getStoryEndpoint, h], ?_, ?_, ?_, ?_, ?_, ?_⟩ <;>
      simp [putStory, deleteStory, h]
  · intro s h
    refine ⟨by simp [deleteStory, h], ?_, ?_⟩
    · simp [deleteStory, h, alookup_adel_self]
    · intro k hk
      simp [deleteStory, h, alookup_adel_ne st id k hk]

/-- Witness for C9: both branches at concrete stores. -/
theorem story_endpoints_404_and_delete_witness :
    getStoryEndpoint demoStore "missing" = (404, Except.error "Story not found")
    ∧ (deleteStory demoStore "missing").2 = demoStore
    ∧ (deleteStory demoStore "1").1 = (204, Except.ok ())
    ∧ alookup (deleteStory demoStore "1").2 "1" = none := by
  have h1 := (story_endpoints_404_and_delete demoStore "missing" {} 0).1 rfl
  have h2 := (story_endpoints_404_and_delete demoStore "1" {} 0).2 demoStory rfl
  exact ⟨h1.1, h1.2.2.2.2.2.2, h2.1, h2.2.1⟩

/-- C10.  `POST /api/stories/:id/accept-splits` on an existing parent:
every created sub-story points back to the parent (`parentStoryId`),
inherits the parent's `epicId`, and is stored as a `draft` at version 1
with `createdFrom = ai-split`; the parent is re-stored with `hasSplits
= true` and every other field except `lastModified` unchanged. -/
theorem acceptSplits_creates_substories (st : Store) (id : String)
    (splits : List SplitBody) (now : Nat) (parent : Story)
    (h : alookup st id = some parent) :
    (acceptSplits st id splits now).status = 201
    ∧ (∀ sub ∈ (acceptSplits st id splits now).subStories,
        sub.parentStoryId = some id ∧ sub.epicId = parent.epicId
        ∧ sub.status = "draft" ∧ sub.version = 1
        ∧ sub.createdFrom = some "ai-split")
    ∧ (∃ u : Story,
        (acceptSplits st id splits now).parentStory = some u
        ∧ alookup (acceptSplits st id splits now).store id = some u
        ∧ u.hasSplits = true ∧ u.lastModified = now
        ∧ u.id = parent.id ∧ u.title = parent.title
        ∧ u.description = parent.description ∧ u.content = parent.content
        ∧ u.parentStoryId = parent.parentStoryId ∧ u.epicId = parent.epicId
        ∧ u.priority = parent.priority ∧ u.effort = parent.effort
        ∧ u.storyPoints = parent.storyPoints
        ∧ u.acceptanceCriteria = parent.acceptanceCriteria
        ∧ u.status = parent.status ∧ u.version = parent.version
        ∧ u.createdAt = parent.createdAt ∧ u.createdFrom = parent.createdFrom) := by
  refine ⟨by simp [acceptSplits, h], ?_, ?_⟩
  · intro sub hsub
    simp only [acceptSplits, h, List.mem_map] at hsub
    obtain ⟨p, _, rfl⟩ := hsub
    exact ⟨rfl, rfl, rfl, rfl, rfl⟩
  · refine ⟨{ parent with hasSplits := true, lastModified := now },
      by simp [acceptSplits, h], ?_, rfl, rfl, rfl, rfl, rfl, rfl, rfl, rfl, rfl,
      rfl, rfl, rfl, rfl, rfl, rfl, rfl⟩
    simp [acceptSplits, h, alookup_aset_self]

/-- Witness for C10 on the demo store. -/
theorem acceptSplits_creates_substories_witness :
    (acceptSplits demoStore "1" [{ title := "Log in with email" }] 9).status = 201
    ∧ ∀ sub ∈ (acceptSplits demoStore "1" [{ title := "Log in with email" }] 9).subStories,
        sub.parentStoryId = some "1" ∧ sub.epicId = demoStory.epicId
        ∧ sub.status = "draft" ∧ sub.version = 1
        ∧ sub.createdFrom = some "ai-split" := by
  have h := acceptSplits_creates_substories demoStore "1"
    [{ title := "Log in with email" }] 9 demoStory rfl
  exact ⟨h.1, h.2.1⟩

/-! ## Claim theorems: story analyst -/

/-- C3.  The analyst's overall INVEST score is
`round(100 * n / 6)` (round half up on the exact rational), where `n` is
the number of the six criteria whose heuristic score is true, and the
readiness level is `ready` iff the score is at least 80, `needs-work`
iff it is in `[60, 80)`, and `not-ready` otherwise. -/
theorem invest_score_and_readiness (story : AgentStory) (now : Nat) :
    ((performAnalysis story now).overallScore : ℤ)
        = ratRound ((100 * (countPassed (performAnalysis story now).investScore) : ℚ) / 6)
    ∧ ((performAnalysis story now).readinessLevel = "ready"
        ↔ 80 ≤ (performAnalysis story now).overallScore)
    ∧ ((performAnalysis story now).readinessLevel = "needs-work"
        ↔ 60 ≤ (performAnalysis story now).overallScore
            ∧ (performAnalysis story now).overallScore < 80)
    ∧ ((performAnalysis story now).readinessLevel = "not-ready"
        ↔ (performAnalysis story now).overallScore < 60) := by
  have hov : (performAnalysis story now).overallScore
      = jsRoundDiv (countPassed (performAnalysis story now).investScore * 100) 6 := rfl
  have hrd : (performAnalysis story now).readinessLevel
      = (if 80 ≤ (performAnalysis story now).overallScore then "ready"
         else if 60 ≤ (performAnalysis story now).overallScore then "needs-work"
         else "not-ready") := rfl
  have hle : countPassed (performAnalysis story now).investScore ≤ 6 :=
    List.length_filter_le _ _
  rw [hrd, hov]
  set n := countPassed (performAnalysis story now).investScore with hn
  interval_cases n <;>
    exact ⟨by norm_num [jsRoundDiv, ratRound], by decide, by decide, by decide⟩

/-! ## Claim theorems: splitting expert fallbacks -/

/-- C6.  `generateSplitSuggestions` never throws (it is a total
function of its input and the clock): when no splitting pattern is
detected it returns the no-split result — empty suggestion list,
`recommendedApproach.primarySuggestion = "no-split"`, confidence 0.9 —
and when the internal error occurs (dereferencing an absent analysis
result) the `catch` returns the fallback — `primarySuggestion =
"manual"`, confidence 0.3, `patternsConsidered = ["manual"]` — instead
of propagating the error. -/
theorem generateSplitSuggestions_fallbacks (input : SplitInput) (now : Nat) :
    (detectPatterns input.story input.analysisResult = Except.ok [] →
      generateSplitSuggestions input now =
        { suggestions := []
          recommendedApproach :=
            { primarySuggestion := "no-split"
              reasoning := "Story is already appropriately sized" }
          metadata :=
            { analysisTime := now, confidence := 90, patternsConsidered := [] } })
    ∧ (input.analysisResult = none →
      generateSplitSuggestions input now =
        { suggestions := []
          recommendedApproach :=
            { primarySuggestion := "manual"
              reasoning := "Automated splitting unavailable - manual splitting recommended" }
          metadata :=
            { analysisTime := now, confidence := 30,
              patternsConsidered := ["manual"] } }) := by
  constructor
  · intro h
    simp [generateSplitSuggestions, h, createNoSplitResult]
  · intro h
    have hd : detectPatterns input.story input.analysisResult = Except.error () := by
      simp [detectPatterns, h]
    simp [generateSplitSuggestions, hd, createFallbackSuggestions]

/-- Witness for C6: a pattern-free input and an input with an absent
analysis result. -/
theorem generateSplitSuggestions_fallbacks_witness :
    generateSplitSuggestions noPatternInput 3 =
      { suggestions := []
        recommendedApproach :=
          { primarySuggestion := "no-split"
            reasoning := "Story is already appropriately sized" }
        metadata :=
          { analysisTime := 3, confidence := 90, patternsConsidered := [] } }
    ∧ generateSplitSuggestions demoSplitInput 3 =
      { suggestions := []
        recommendedApproach :=
          { primarySuggestion := "manual"
            reasoning := "Automated splitting unavailable - manual splitting recommended" }
        metadata :=
          { analysisTime := 3, confidence := 30,
            patternsConsidered := ["manual"] } } :=
  ⟨(generateSplitSuggestions_fallbacks noPatternInput 3).1 rfl,
   (generateSplitSuggestions_fallbacks demoSplitInput 3).2 rfl⟩

/-! ## Claim theorems: agent determinism up to the clock -/

/-- Counterexample to C1 as stated: two evaluations of
`performAnalysis` (resp. `generateSplitSuggestions`) on the same fixed
input but at different clock readings — which is what two successive JS
runs observe via `new Date()` / `Date.now()` — do not yield identical
results: the `analysisMetadata.analysisTime` (and, in general, the
`Date.now()`-based ids) differ. -/
theorem agents_not_run_identical :
    performAnalysis demoAgentStory 0 ≠ performAnalysis demoAgentStory 1
    ∧ generateSplitSuggestions demoSplitInput 0
        ≠ generateSplitSuggestions demoSplitInput 1 := by
  constructor
  · intro h
    have h2 := congrArg (fun a => a.analysisMetadata.analysisTime) h
    exact absurd h2 (by decide)
  · intro h
    have h2 := congrArg (fun r => r.metadata.analysisTime) h
    exact absurd h2 (by decide)

/-- Mapping the id-blanking over a stable insertion commutes, because
the insertion only inspects the priority, which blanking preserves. -/
theorem map_scrub_insertByPriority (d : SplitDraft) (l : List SplitDraft) :
    (insertByPriority d l).map scrubDraft
      = insertByPriority (scrubDraft d) (l.map scrubDraft) := by
  induction l with
  | nil => rfl
  | cons e es ih =>
    by_cases h : d.priority ≤ e.priority <;>
      simp [insertByPriority, scrubDraft, h, ih]

/-- Mapping the id-blanking over the stable sort commutes. -/
theorem map_scrub_sortByPriority (l : List SplitDraft) :
    (sortByPriority l).map scrubDraft = sortByPriority (l.map scrubDraft) := by
  induction l with
  | nil => rfl
  | cons d ds ih =>
    simp only [sortByPriority, List.foldr_cons, List.map_cons]
    rw [map_scrub_insertByPriority]
    exact congrArg _ ih

/-- The workflow generator's output is clock-independent after
id-blanking. -/
theorem scrub_generateWorkflowSplits (input : SplitInput) (pat : SplitPattern)
    (t1 t2 : Nat) :
    (generateWorkflowSplits input pat t1).map scrubSuggestion
      = (generateWorkflowSplits input pat t2).map scrubSuggestion := by
  unfold generateWorkflowSplits
  by_cases h : (extractWorkflowSteps input.story).length < 2
  · simp [h]
  · simp only [h, if_false, Option.map_some]
    refine congrArg some ?_
    simp only [scrubSuggestion, List.map_map]
    rfl

/-- Constant-mapping two lists of equal length gives equal lists. -/
theorem map_blank_of_length {α : Type} (l1 l2 : List α)
    (h : l1.length = l2.length) :
    l1.map (fun _ => ("" : String)) = l2.map (fun _ => "") := by
  induction l1 generalizing l2 with
  | nil => cases l2 with | nil => rfl | cons _ _ => simp at h
  | cons a as ih =>
    cases l2 with
    | nil => simp at h
    | cons b bs => simp_all

/-- Blanking a suggestion built over draft lists with equal blankings
gives equal results. -/
theorem scrubSuggestion_congr (id1 id2 : String) (pat : SplitPattern)
    (conf : Nat) (reas : String) (l1 l2 : List SplitDraft)
    (vds : String) (rm : List String)
    (h : l1.map scrubDraft = l2.map scrubDraft) :
    scrubSuggestion
      { id := id1, pattern := pat, confidence := conf, reasoning := reas,
        suggestedSplits := l1, implementationOrder := l1.map SplitDraft.id,
        valueDeliveryStrategy := vds, riskMitigation := rm }
    = scrubSuggestion
      { id := id2, pattern := pat, confidence := conf, reasoning := reas,
        suggestedSplits := l2, implementationOrder := l2.map SplitDraft.id,
        valueDeliveryStrategy := vds, riskMitigation := rm } := by
  have hlen : l1.length = l2.length := by
    have h2 := congrArg List.length h
    simpa using h2
  simp only [scrubSuggestion, List.map_map]
  congr 1
  exact map_blank_of_length l1 l2 hlen

/-- The CRUD generator's output is clock-independent after
id-blanking. -/
theorem scrub_generateCRUDSplits (input : SplitInput) (pat : SplitPattern)
    (t1 t2 : Nat) :
    (generateCRUDSplits input pat t1).map scrubSuggestion
      = (generateCRUDSplits input pat t2).map scrubSuggestion := by
  unfold generateCRUDSplits
  by_cases h : (extractCRUDOperations input.story).length < 2
  · simp [h]
  · simp only [h, if_false, Option.map_some]
    refine congrArg some (scrubSuggestion_congr _ _ _ _ _ _ _ _ _ ?_)
    rw [map_scrub_sortByPriority, map_scrub_sortByPriority,
      List.map_map, List.map_map]
    rfl

/-- The business-rule generator's output is clock-independent after
id-blanking. -/
theorem scrub_generateBusinessRuleSplits (input : SplitInput)
    (pat : SplitPattern) (t1 t2 : Nat) :
    (generateBusinessRuleSplits input pat t1).map scrubSuggestion
      = (generateBusinessRuleSplits input pat t2).map scrubSuggestion := by
  unfold generateBusinessRuleSplits
  by_cases h : (extractBusinessRules input.story).length < 2
  · simp [h]
  · simp only [h, if_false, Option.map_some]
    refine congrArg some (scrubSuggestion_congr _ _ _ _ _ _ _ _ _ ?_)
    simp only [List.map_cons, List.map_map]
    rfl

/-- The simple/complex generator's output is clock-independent after
id-blanking. -/
theorem scrub_generateSimpleComplexSplits (input : SplitInput)
    (pat : SplitPattern) (t1 t2 : Nat) :
    (generateSimpleComplexSplits input pat t1).map scrubSuggestion
      = (generateSimpleComplexSplits input pat t2).map scrubSuggestion := rfl

/-- Per-pattern dispatch: the generated suggestion is clock-independent
after id-blanking. -/
theorem scrub_generateSuggestionForPattern (input : SplitInput)
    (pat : SplitPattern) (t1 t2 : Nat) :
    (generateSuggestionForPattern input pat t1).map scrubSuggestion
      = (generateSuggestionForPattern input pat t2).map scrubSuggestion := by
  by_cases h1 : pat.type = "workflow-steps"
  · simpa [generateSuggestionForPattern, h1] using
      scrub_generateWorkflowSplits input pat t1 t2
  by_cases h2 : pat.type = "crud-operations"
  · simpa [generateSuggestionForPattern, h1, h2] using
      scrub_generateCRUDSplits input pat t1 t2
  by_cases h3 : pat.type = "business-rules"
  · simpa [generateSuggestionForPattern, h1, h2, h3] using
      scrub_generateBusinessRuleSplits input pat t1 t2
  by_cases h4 : pat.type = "simple-complex"
  · simpa [generateSuggestionForPattern, h1, h2, h3, h4] using
      scrub_generateSimpleComplexSplits input pat t1 t2
  · simp [generateSuggestionForPattern, h1, h2, h3, h4]

/-- `createSplitSuggestions` is clock-independent after id-blanking. -/
theorem scrub_createSplitSuggestions (input : SplitInput)
    (pats : List SplitPattern) (t1 t2 : Nat) :
    (createSplitSuggestions input pats t1).map scrubSuggestion
      = (createSplitSuggestions input pats t2).map scrubSuggestion := by
  induction pats with
  | nil => rfl
  | cons p ps ih =>
    simp only [createSplitSuggestions, List.filterMap_cons] at ih ⊢
    have h := scrub_generateSuggestionForPattern input p t1 t2
    cases h1 : generateSuggestionForPattern input p t1 with
    | none =>
      cases h2 : generateSuggestionForPattern input p t2 with
      | none => exact ih
      | some s2 => rw [h1, h2] at h; simp at h
    | some s1 =>
      cases h2 : generateSuggestionForPattern input p t2 with
      | none => rw [h1, h2] at h; simp at h
      | some s2 =>
        rw [h1, h2] at h
        simp at h
        simp only [List.map_cons, List.cons.injEq]
        exact ⟨h, ih⟩

/-- Blanking the interactive decoration of suggestions with equal
blankings, built at possibly different clocks, gives equal results. -/
theorem scrub_mkInteractive (input : SplitInput) (t1 t2 : Nat)
    (s1 s2 : SplitSuggestion) (h : scrubSuggestion s1 = scrubSuggestion s2) :
    scrubInteractive (mkInteractive input t1 s1)
      = scrubInteractive (mkInteractive input t2 s2) := by
  have hsplits : s1.suggestedSplits.map scrubDraft
      = s2.suggestedSplits.map scrubDraft :=
    congrArg SplitSuggestion.suggestedSplits h
  simp only [scrubInteractive, mkInteractive, calcSplitBoardImpact,
    List.map_cons, List.map_map]
  refine congrArg₂ (fun (a : SplitSuggestion)
      (b : SuggestionPreview) => InteractiveSuggestion.mk a

      { status := "suggested", editHistory := [] } b
      { canApply := true, warnings := [], conflicts := [] }) h ?_
  refine congrArg₂ (fun (a : List DraftStory) (b : List BoardChange) =>
    SuggestionPreview.mk { original := input.story, splits := a }
      (BoardChange.modifyOriginal
        (if input.story.id = "" then "original" else input.story.id)
        "split" (input.story.title ++ " (SPLIT)") :: b)) ?_ ?_
  · show s1.suggestedSplits.map (fun d => scrubDraftStory (draftToStory d t1))
      = s2.suggestedSplits.map (fun d => scrubDraftStory (draftToStory d t2))
    have e1 : s1.suggestedSplits.map (fun d => scrubDraftStory (draftToStory d t1))
        = (s1.suggestedSplits.map scrubDraft).map draftStoryOfScrub := by
      rw [List.map_map]; rfl
    have e2 : s2.suggestedSplits.map (fun d => scrubDraftStory (draftToStory d t2))
        = (s2.suggestedSplits.map scrubDraft).map draftStoryOfScrub := by
      rw [List.map_map]; rfl
    rw [e1, e2, hsplits]
  · show (s1.suggestedSplits.enum.map (fun p => scrubChange
        (BoardChange.addSplit p.2.id (p.1 * 200) 100 input.story.id
          (draftToStory p.2 t1))))
      = s2.suggestedSplits.enum.map (fun p => scrubChange
        (BoardChange.addSplit p.2.id (p.1 * 200) 100 input.story.id
          (draftToStory p.2 t2)))
    have e1 : s1.suggestedSplits.enum.map (fun p => scrubChange
        (BoardChange.addSplit p.2.id (p.1 * 200) 100 input.story.id
          (draftToStory p.2 t1)))
        = ((s1.suggestedSplits.map scrubDraft).enum).map (fun q =>
            BoardChange.addSplit "" (q.1 * 200) 100 input.story.id
              (draftStoryOfScrub q.2)) := by
      rw [List.enum_map, List.map_map]; rfl
    have e2 : s2.suggestedSplits.enum.map (fun p => scrubChange
        (BoardChange.addSplit p.2.id (p.1 * 200) 100 input.story.id
          (draftToStory p.2 t2)))
        = ((s2.suggestedSplits.map scrubDraft).enum).map (fun q =>
            BoardChange.addSplit "" (q.1 * 200) 100 input.story.id
              (draftStoryOfScrub q.2)) := by
      rw [List.enum_map, List.map_map]; rfl
    rw [e1, e2, hsplits]

/-- Decorating suggestion lists with equal blankings at possibly
different clocks gives interactive lists with equal blankings. -/
theorem scrub_createInteractiveSuggestions (input : SplitInput) (t1 t2 : Nat)
    (l1 l2 : List SplitSuggestion)
    (h : l1.map scrubSuggestion = l2.map scrubSuggestion) :
    (createInteractiveSuggestions l1 input t1).map scrubInteractive
      = (createInteractiveSuggestions l2 input t2).map scrubInteractive := by
  induction l1 generalizing l2 with
  | nil => cases l2 with | nil => rfl | cons _ _ => simp at h
  | cons s1 r1 ih =>
    cases l2 with
    | nil => simp at h
    | cons s2 r2 =>
      simp only [List.map_cons, List.cons.injEq] at h
      simp only [createInteractiveSuggestions, List.map_cons, List.cons.injEq]
      exact ⟨scrub_mkInteractive input t1 t2 s1 s2 h.1, ih r2 h.2⟩

/-- The reduce of `selectRecommendedApproach` respects blanking. -/
theorem scrub_foldl_pickBest (l1 l2 : List InteractiveSuggestion)
    (s1 s2 : InteractiveSuggestion)
    (hs : scrubInteractive s1 = scrubInteractive s2)
    (h : l1.map scrubInteractive = l2.map scrubInteractive) :
    scrubInteractive (l1.foldl pickBest s1)
      = scrubInteractive (l2.foldl pickBest s2) := by
  induction l1 generalizing l2 s1 s2 with
  | nil => cases l2 with | nil => simpa using hs | cons _ _ => simp at h
  | cons a1 r1 ih =>
    cases l2 with
    | nil => simp at h
    | cons a2 r2 =>
      simp only [List.map_cons, List.cons.injEq] at h
      simp only [List.foldl_cons]
      refine ih _ _ _ ?_ h.2
      have hconf : a1.base.confidence = a2.base.confidence :=
        congrArg (fun x => x.base.confidence) h.1
      have hconf2 : s1.base.confidence = s2.base.confidence :=
        congrArg (fun x => x.base.confidence) hs
      unfold pickBest
      rw [hconf, hconf2]
      by_cases hc : s2.base.confidence < a2.base.confidence
      · simp [hc, h.1]
      · simp [hc, hs]

/-- `selectRecommendedApproach` yields the same reasoning on lists with
equal blankings, and identical results on empty lists. -/
theorem scrub_selectRecommendedApproach (l1 l2 : List InteractiveSuggestion)
    (h : l1.map scrubInteractive = l2.map scrubInteractive) :
    (selectRecommendedApproach l1).reasoning
        = (selectRecommendedApproach l2).reasoning
    ∧ (l1.isEmpty = l2.isEmpty)
    ∧ (l1.isEmpty = true → selectRecommendedApproach l1 = selectRecommendedApproach l2) := by
  cases l1 with
  | nil =>
    cases l2 with
    | nil => exact ⟨rfl, rfl, fun _ => rfl⟩
    | cons _ _ => simp at h
  | cons s1 r1 =>
    cases l2 with
    | nil => simp at h
    | cons s2 r2 =>
      simp only [List.map_cons, List.cons.injEq] at h
      have hbest := scrub_foldl_pickBest r1 r2 s1 s2 h.1 h.2
      refine ⟨?_, rfl, fun hemp => by simp [List.isEmpty] at hemp⟩
      show (r1.foldl pickBest s1).base.reasoning
        = (r2.foldl pickBest s2).base.reasoning
      exact congrArg (fun x => x.base.reasoning) hbest

/-- `calculateOverallConfidence` agrees on lists with equal blankings. -/
theorem scrub_calculateOverallConfidence (l1 l2 : List InteractiveSuggestion)
    (h : l1.map scrubInteractive = l2.map scrubInteractive) :
    calculateOverallConfidence l1 = calculateOverallConfidence l2 := by
  have hconf : l1.map (fun s => s.base.confidence)
      = l2.map (fun s => s.base.confidence) := by
    have h1 : l1.map (fun s => s.base.confidence)
        = (l1.map scrubInteractive).map (fun s => s.base.confidence) := by
      rw [List.map_map]; rfl
    have h2 : l2.map (fun s => s.base.confidence)
        = (l2.map scrubInteractive).map (fun s => s.base.confidence) := by
      rw [List.map_map]; rfl
    rw [h1, h2, h]
  have hlen : l1.length = l2.length := by
    have h2 := congrArg List.length h
    simpa using h2
  have hemp : l1.isEmpty = l2.isEmpty := by
    cases l1 <;> cases l2 <;> simp_all
  unfold calculateOverallConfidence
  rw [hconf, hlen, hemp]

/-- `generateSplitSuggestions` is a pure function of the input and the
clock, and every clock dependence is confined to the fields blanked by
`scrubResult`. -/
theorem scrub_generateSplitSuggestions (input : SplitInput) (t1 t2 : Nat) :
    scrubResult (generateSplitSuggestions input t1)
      = scrubResult (generateSplitSuggestions input t2) := by
  unfold generateSplitSuggestions
  cases hd : detectPatterns input.story input.analysisResult with
  | error e => rfl
  | ok pats =>
    cases pats with
    | nil => rfl
    | cons p ps =>
      have hsug := scrub_createSplitSuggestions input (p :: ps) t1 t2
      have hint := scrub_createInteractiveSuggestions input t1 t2 _ _ hsug
      have hsel := scrub_selectRecommendedApproach _ _ hint
      have hcon := scrub_calculateOverallConfidence _ _ hint
      simp only [scrubResult, SplitResult.mk.injEq]
      refine ⟨hint, ?_, ?_⟩
      · simp only [RecommendedApproach.mk.injEq]
        constructor
        · by_cases hemp : (createInteractiveSuggestions
              (createSplitSuggestions input (p :: ps) t1) input t1).isEmpty = true
          · have hemp2 : (createInteractiveSuggestions
                (createSplitSuggestions input (p :: ps) t2) input t2).isEmpty = true := by
              rw [← hsel.2.1]; exact hemp
            rw [hemp, hemp2]
            simp only [if_true]
            exact congrArg RecommendedApproach.primarySuggestion (hsel.2.2 hemp)
          · have hemp2 : ¬ (createInteractiveSuggestions
                (createSplitSuggestions input (p :: ps) t2) input t2).isEmpty = true := by
              rw [← hsel.2.1]; exact hemp
            simp [hemp, hemp2]
        · exact hsel.1
      · simp only [SplitMetadata.mk.injEq]
        exact ⟨trivial, hcon, trivial⟩

/-- C1 (amended).  The two heuristic agents are deterministic up to the
clock: `performAnalysis` and `generateSplitSuggestions` are pure
functions of the story/input and the single clock reading, two
evaluations at the same clock reading agree exactly, and across
different clock readings every part of the result agrees except the
clock-derived fields — `analysisMetadata.analysisTime` for the analyst,
and the analysis time plus the `Date.now()`-based id strings for the
splitting expert. -/
theorem agents_deterministic_up_to_clock (story : AgentStory)
    (input : SplitInput) (t1 t2 : Nat) :
    performAnalysis story t1 = (performAnalysis story t2).withTime t1
    ∧ scrubResult (generateSplitSuggestions input t1)
        = scrubResult (generateSplitSuggestions input t2) :=
  ⟨rfl, scrub_generateSplitSuggestions input t1 t2⟩

end StorySplitter
